import Mathlib

/-!
Verification development for the newszoid-backend news aggregation pipeline
(routes/news.js + controllers/newsController.js + utils/hardcodedData.js).

The JavaScript controller is shallowly embedded: JSON/JS values are modelled
by `JsVal`, exceptions by `Except Unit`, and the two sources of runtime
nondeterminism used by the code (`Date.now()` / `new Date().toISOString()`
and `Math.random()`) are made explicit through an `Env` value supplied per
normalization call.  External library functions (axios, node-cache, Date
parsing/printing, encodeURIComponent) are modelled at the interface level:
the theorems below never depend on their internals.
-/

set_option maxRecDepth 10000

namespace Newszoid

/-- Model of a JavaScript/JSON value, covering the shapes the controller
manipulates.  `vObj`/`vArr` stand for heap objects; two distinct literals are
distinct references. -/
inductive JsVal where
  | vNull
  | vUndef
  | vBool (b : Bool)
  | vNum (n : Int)
  | vStr (s : String)
  | vArr (elems : List JsVal)
  | vObj (fields : List (String × JsVal))
deriving Repr

open JsVal

/-- Per-call nondeterminism environment: `nowMs` models `Date.now()` (and the
timestamp behind `new Date()`), `rand` models the decimal rendering of
`Math.random()`. -/
structure Env where
  nowMs : Nat
  rand : String
deriving Repr, DecidableEq

/-- Rendering of `new Date(ms).toISOString()`.  The concrete format is
irrelevant to every theorem below; we only keep it injective in the
timestamp. -/
def isoString (ms : Nat) : String := toString ms

/-- JavaScript truthiness for the modelled values: `null`, `undefined`,
`false`, `0` and `""` are falsy; objects and arrays are truthy. -/
def truthy : JsVal → Bool
  | vNull => false
  | vUndef => false
  | vBool b => b
  | vNum n => n != 0
  | vStr s => s != ""
  | vArr _ => true
  | vObj _ => true

/-- `a || b` (JavaScript logical or, value-returning).  Both operands are
already evaluated when this is applied; lazy right operands are modelled by
explicit `if truthy` branching at the call site. -/
def jsOr (a b : JsVal) : JsVal := if truthy a then a else b

/-- Property lookup on an object's field list (first binding wins; the
provider payloads modelled here have no duplicate keys). -/
def objLookup (fields : List (String × JsVal)) (name : String) : JsVal :=
  match fields.find? (fun f => f.1 == name) with
  | some f => f.2
  | none => vUndef

/-- `v.name`: property access.  Throws (TypeError) on `null`/`undefined`,
yields `undefined` for absent properties and for primitives. -/
def getField (v : JsVal) (name : String) : Except Unit JsVal :=
  match v with
  | vNull => .error ()
  | vUndef => .error ()
  | vObj fields => .ok (objLookup fields name)
  | _ => .ok vUndef

/-- `v?.name`: optional-chained property access — `null`/`undefined` short
circuit to `undefined` instead of throwing. -/
def getFieldOpt (v : JsVal) (name : String) : Except Unit JsVal :=
  match v with
  | vNull => .ok vUndef
  | vUndef => .ok vUndef
  | _ => getField v name

/-- Total variant of property lookup (used only in theorem statements). -/
def jsField (v : JsVal) (name : String) : JsVal :=
  match v with
  | vObj fields => objLookup fields name
  | _ => vUndef

/-- First `n` characters of a string (`s.substring(0, n)`). -/
def takeChars (s : String) (n : Nat) : String := String.mk (s.data.take n)

/-- `v?.substring(0, n)`: optional call — `undefined` when the receiver is
`null`/`undefined`, a TypeError (throw) when it is a non-string value. -/
def jsSubstringOpt (v : JsVal) (n : Nat) : Except Unit JsVal :=
  match v with
  | vNull => .ok vUndef
  | vUndef => .ok vUndef
  | vStr s => .ok (vStr (takeChars s n))
  | _ => .error ()

/-- The canonical unit of the pipeline: one normalized article object, the
shape every `normalizeArticle` branch and every fallback record produces.
Field values stay in the JS value model since the source performs no type
coercion on them. -/
structure Article where
  id : JsVal
  title : JsVal
  snippet : JsVal
  url : JsVal
  image : JsVal
  publishedAt : JsVal
  source : JsVal
  category : JsVal
  aiSummary : JsVal
deriving Repr

-- ============================================================
-- normalizeArticle (newsController.js lines 175-221)
-- ============================================================

/-- Body of the `case 'gnews'` branch of `normalizeArticle` (before the
surrounding try/catch).  `||` right operands are evaluated lazily, matching
the JavaScript short-circuit order. -/
def gnewsBody (raw : JsVal) (env : Env) : Except Unit Article := do
  let u1 ← getField raw "url"
  let t ← getField raw "title"
  let d ← getField raw "description"
  let snip ←
    if truthy d then pure d
    else do
      let c ← getField raw "content"
      pure (jsOr c (vStr ""))
  let u2 ← getField raw "url"
  let img ← getField raw "image"
  let pub ← getField raw "publishedAt"
  let srcObj ← getField raw "source"
  let sname ← getFieldOpt srcObj "name"
  let cat ← getField raw "category"
  pure {
    id := jsOr u1 (vStr ("gnews_" ++ toString env.nowMs ++ "_" ++ env.rand)),
    title := jsOr t (vStr "Untitled"),
    snippet := snip,
    url := jsOr u2 (vStr "#"),
    image := jsOr img (vStr "https://via.placeholder.com/600x400?text=News"),
    publishedAt := jsOr pub (vStr (isoString env.nowMs)),
    source := jsOr sname (vStr "GNews"),
    category := jsOr cat (vStr "general"),
    aiSummary := vNull }

/-- Body of the `case 'guardian'` branch of `normalizeArticle`. -/
def guardianBody (raw : JsVal) (env : Env) : Except Unit Article := do
  let rid ← getField raw "id"
  let wtitle ← getField raw "webTitle"
  let f1 ← getField raw "fields"
  let trail ← getFieldOpt f1 "trailText"
  let snip ←
    if truthy trail then pure trail
    else do
      let f2 ← getField raw "fields"
      let bodyT ← getFieldOpt f2 "bodyText"
      let sub ← jsSubstringOpt bodyT 200
      pure (jsOr sub (vStr ""))
  let wurl ← getField raw "webUrl"
  let f3 ← getField raw "fields"
  let thumb ← getFieldOpt f3 "thumbnail"
  let wdate ← getField raw "webPublicationDate"
  let sect ← getField raw "sectionName"
  pure {
    id := jsOr rid (vStr ("guardian_" ++ toString env.nowMs ++ "_" ++ env.rand)),
    title := jsOr wtitle (vStr "Untitled"),
    snippet := snip,
    url := jsOr wurl (vStr "#"),
    image := jsOr thumb (vStr "https://via.placeholder.com/600x400?text=News"),
    publishedAt := jsOr wdate (vStr (isoString env.nowMs)),
    source := vStr "The Guardian",
    category := jsOr sect (vStr "general"),
    aiSummary := vNull }

/-- Body of the `default` branch of `normalizeArticle`. -/
def defaultBody (raw : JsVal) (env : Env) : Except Unit Article := do
  let u1 ← getField raw "url"
  let idv ←
    if truthy u1 then pure u1
    else do
      let i ← getField raw "id"
      pure (jsOr i (vStr ("news_" ++ toString env.nowMs ++ "_" ++ env.rand)))
  let t ← getField raw "title"
  let d ← getField raw "description"
  let snip ←
    if truthy d then pure d
    else do
      let s ← getField raw "snippet"
      pure (jsOr s (vStr ""))
  let u2 ← getField raw "url"
  let img ← getField raw "image"
  let pub ← getField raw "publishedAt"
  let src ← getField raw "source"
  let cat ← getField raw "category"
  pure {
    id := idv,
    title := jsOr t (vStr "Untitled"),
    snippet := snip,
    url := jsOr u2 (vStr "#"),
    image := jsOr img (vStr "https://via.placeholder.com/600x400?text=News"),
    publishedAt := jsOr pub (vStr (isoString env.nowMs)),
    source := jsOr src (vStr "Newszoid"),
    category := jsOr cat (vStr "general"),
    aiSummary := vNull }

/-- The `switch (source)` dispatch inside `normalizeArticle`'s try block. -/
def normalizeBody (src : String) (raw : JsVal) (env : Env) : Except Unit Article :=
  if src = "gnews" then gnewsBody raw env
  else if src = "guardian" then guardianBody raw env
  else defaultBody raw env

/-- `try { body } catch { return null }` in the exception monad: a thrown
error is converted to a normal `null` return. -/
def jsTryNull (x : Except Unit Article) : Except Unit (Option Article) :=
  match x with
  | .ok a => .ok (some a)
  | .error _ => .ok none

/-- `normalizeArticle` as seen by its caller, still in the exception monad so
"does it ever propagate an exception?" is a real question about the
definition. -/
def normalizeArticleEx (src : String) (raw : JsVal) (env : Env) :
    Except Unit (Option Article) :=
  jsTryNull (normalizeBody src raw env)

/-- `normalizeArticle(source, raw)`: a normalized article, or `null` for an
unusable item. -/
def normalizeArticle (src : String) (raw : JsVal) (env : Env) : Option Article :=
  match normalizeArticleEx src raw env with
  | .ok r => r
  | .error _ => none

-- ============================================================
-- String helpers mirroring the JS built-ins the controller uses
-- ============================================================

/-- `s.toLowerCase()`. -/
def jsLower (s : String) : String := String.mk (s.data.map Char.toLower)

/-- Whitespace stripped by `String.prototype.trim`: the ECMAScript
WhiteSpace set (TAB, VT, FF, SP, NBSP, BOM and the Unicode Zs spaces) plus
the LineTerminator set (LF, CR, LS, PS). -/
def isJsSpace (c : Char) : Bool :=
  c == ' ' || c == '\t' || c == '\n' || c == '\r' ||
  c.toNat = 0x0B || c.toNat = 0x0C || c.toNat = 0xA0 || c.toNat = 0xFEFF ||
  c.toNat = 0x1680 || (0x2000 ≤ c.toNat && c.toNat ≤ 0x200A) ||
  c.toNat = 0x2028 || c.toNat = 0x2029 || c.toNat = 0x202F ||
  c.toNat = 0x205F || c.toNat = 0x3000

/-- `s.trim()`. -/
def jsTrim (s : String) : String :=
  String.mk (((s.data.dropWhile isJsSpace).reverse.dropWhile isJsSpace).reverse)

def prefixChars : List Char → List Char → Bool
  | [], _ => true
  | _ :: _, [] => false
  | a :: as, b :: bs => a == b && prefixChars as bs

def infixChars (sub : List Char) : List Char → Bool
  | [] => prefixChars sub []
  | l@(_ :: t) => prefixChars sub l || infixChars sub t

/-- `s.includes(sub)`. -/
def jsIncludes (s sub : String) : Bool := infixChars sub.data s.data

/-- Interface-level model of `encodeURIComponent`; the theorems never
inspect the encoded text. -/
def encodeURIComponent (s : String) : String := s

-- ============================================================
-- SameValueZero equality, as used by `Set#has`/`Set#add` on the url keys.
-- Primitives compare by value; objects and arrays compare by reference, and
-- every object flowing into the dedup step here is a freshly created one,
-- so distinct object occurrences are never identical references.
-- ============================================================

def primEq : JsVal → JsVal → Bool
  | vNull, vNull => true
  | vUndef, vUndef => true
  | vBool a, vBool b => a == b
  | vNum a, vNum b => a == b
  | vStr a, vStr b => a == b
  | _, _ => false

-- ============================================================
-- Date handling in the sort comparator.  `new Date(s) - new Date(t)` is
-- modelled through an interface-level parse of the stored timestamp string;
-- no theorem depends on the resulting order, only on the output being a
-- permutation of the input.
-- ============================================================

def digitsVal (l : List Char) : Nat :=
  l.foldl (fun acc c => if c.isDigit then acc * 10 + (c.toNat - 48) else acc) 0

/-- Numeric value of a `publishedAt` field for the sort comparator. -/
def jsDateMs : JsVal → Int
  | vStr s => Int.ofNat (digitsVal s.data)
  | vNum n => n
  | _ => 0

def articleDateKey (a : Article) : Int := jsDateMs a.publishedAt

/-- Stable insertion of one article into a list sorted by descending
`publishedAt` (ties keep earlier-inserted elements first). -/
def insertByDate (a : Article) : List Article → List Article
  | [] => [a]
  | b :: t =>
    if articleDateKey a ≥ articleDateKey b then a :: b :: t
    else b :: insertByDate a t

/-- `articles.sort((a, b) => new Date(b.publishedAt) - new Date(a.publishedAt))`,
modelled as a stable comparison sort. -/
def sortByDateDesc : List Article → List Article
  | [] => []
  | a :: t => insertByDate a (sortByDateDesc t)

-- ============================================================
-- Deduplication by url (newsController.js lines 322-329 / 474-479)
-- ============================================================

def dedupAux (seen : List JsVal) : List Article → List Article
  | [] => []
  | a :: t =>
    if seen.any (fun k => primEq k a.url) then dedupAux seen t
    else a :: dedupAux (a.url :: seen) t

/-- `articles.filter(a => seen.has(a.url) ? false : (seen.add(a.url), true))`. -/
def dedupByUrl (l : List Article) : List Article := dedupAux [] l

-- ============================================================
-- Batch normalization: `.map(a => normalizeArticle(src, a)).filter(Boolean)`.
-- Each call to `normalizeArticle` draws fresh `Date.now()` / `Math.random()`
-- values, modelled by indexing the environment stream with the item's
-- position.
-- ============================================================

def jsBatchAux (src : String) (envs : Nat → Env) (i : Nat) : List JsVal → List Article
  | [] => []
  | a :: t =>
    match normalizeArticle src a (envs i) with
    | some art => art :: jsBatchAux src envs (i + 1) t
    | none => jsBatchAux src envs (i + 1) t

def jsBatch (src : String) (envs : Nat → Env) (items : List JsVal) : List Article :=
  jsBatchAux src envs 0 items

-- ============================================================
-- Provider requests (newsController.js lines 226-248)
-- ============================================================

structure ProviderReq where
  provider : String
  url : String
deriving Repr, DecidableEq

def gnewsUrl (key searchQuery : String) (page pageSize : Int) : String :=
  "https://gnews.io/api/v4/search?q=" ++ encodeURIComponent searchQuery ++
  "&lang=en&max=" ++ toString (min pageSize 10) ++ "&page=" ++ toString page ++
  "&token=" ++ key

def guardianUrl (key searchQuery : String) (page pageSize : Int) : String :=
  "https://content.guardianapis.com/search?api-key=" ++ key ++
  "&q=" ++ encodeURIComponent searchQuery ++
  "&show-fields=trailText,thumbnail,bodyText&page=" ++ toString page ++
  "&page-size=" ++ toString (min pageSize 20)

/-- `buildAPIRequests(searchQuery, page, pageSize)`: one request per
configured provider; a key counts as configured when present, non-empty
(truthy) and not the placeholder value. -/
def buildAPIRequests (gnewsKey guardianKey : Option String)
    (searchQuery : String) (page pageSize : Int) : List ProviderReq :=
  (match gnewsKey with
   | some k =>
     if k != "" && k != "your_gnews_api_key_here" then
       [⟨"gnews", gnewsUrl k searchQuery page pageSize⟩]
     else []
   | none => []) ++
  (match guardianKey with
   | some k =>
     if k != "" && k != "your_guardian_api_key_here" then
       [⟨"guardian", guardianUrl k searchQuery page pageSize⟩]
     else []
   | none => [])

-- ============================================================
-- Per-request fetch + parse (the async closure at lines 292-313 / 444-465):
-- any throw inside it — a failed fetch after retries, `data.articles` on a
-- null body, or `.map` on a non-array — is caught and mapped to [].
-- ============================================================

def processRequestEx (provider : String) (fetched : Except Unit JsVal)
    (envs : Nat → Env) : Except Unit (List Article) := do
  let data ← fetched
  let gnewsArr ←
    if provider == "gnews" then do
      match (← getField data "articles") with
      | vArr items => pure (some items)
      | _ => pure none
    else pure none
  match gnewsArr with
  | some items => pure (jsBatch "gnews" envs items)
  | none => do
    let guardRes ←
      if provider == "guardian" then do
        let resp ← getField data "response"
        let results ← getFieldOpt resp "results"
        pure (if truthy results then some results else none)
      else pure none
    match guardRes with
    | some (vArr items) => pure (jsBatch "guardian" envs items)
    | some _ => .error ()
    | none => pure []

def processRequest (provider : String) (fetched : Except Unit JsVal)
    (envs : Nat → Env) : List Article :=
  match processRequestEx provider fetched envs with
  | .ok arts => arts
  | .error _ => []

-- ============================================================
-- CATEGORY_MAP (newsController.js lines 118-134)
-- ============================================================

/-- `CATEGORY_MAP[category]` — JavaScript bracket lookup on an object
literal, which also reaches members inherited from `Object.prototype`.  The
category is lowercased before the lookup, so the only reachable inherited
keys are `constructor` (the `Object` constructor, truthy) and `__proto__`
(`Object.prototype`, truthy); both later coerce to a string inside the
request URL via the template/`encodeURIComponent`, modelled by stand-in
renderings (the exact native-code text is environment-defined and no
theorem inspects it). -/
def categoryMap (c : String) : Option String :=
  if c = "general" then some "latest news"
  else if c = "india" then some "India news"
  else if c = "world" then some "international world news"
  else if c = "business" then some "business finance economy"
  else if c = "technology" then some "technology AI innovation"
  else if c = "sports" then some "sports cricket football"
  else if c = "environment" then some "climate environment pollution"
  else if c = "education" then some "education schools universities"
  else if c = "health" then some "health medicine healthcare"
  else if c = "science" then some "science research space"
  else if c = "economy" then some "inflation economy GDP"
  else if c = "legal" then some "court law judiciary"
  else if c = "culture" then some "culture arts entertainment"
  else if c = "global-politics" then some "international politics diplomacy"
  else if c = "global-finance" then some "global markets finance"
  else if c = "constructor" then some "[inherited Object.prototype.constructor]"
  else if c = "__proto__" then some "[object Object]"
  else none

/-- `CATEGORY_MAP[category] || category`. -/
def newsSearchQuery (category : String) : String :=
  (categoryMap category).getD category

-- ============================================================
-- INDIAN_CITIES (newsController.js lines 139-148)
-- ============================================================

def indianCityKeys : List String :=
  ["delhi", "mumbai", "bangalore", "chennai", "kolkata", "hyderabad", "pune",
   "ahmedabad"]

def indianCityQuery (key : String) : String :=
  if key = "delhi" then "Delhi NCR news"
  else if key = "mumbai" then "Mumbai news"
  else if key = "bangalore" then "Bangalore Bengaluru news"
  else if key = "chennai" then "Chennai news"
  else if key = "kolkata" then "Kolkata news"
  else if key = "hyderabad" then "Hyderabad news"
  else if key = "pune" then "Pune news"
  else if key = "ahmedabad" then "Ahmedabad news"
  else ""

-- ============================================================
-- HARDCODED_DATA.news (utils/hardcodedData.js).  Every record is authored
-- with url "#", a placeholder image, and `new Date().toISOString()` taken at
-- module load; `t` is that load timestamp.  The JS records carry no
-- `aiSummary` member, so the field reads back as `undefined`.
-- ============================================================

def mkFallbackArticle (t : Nat) (idv title snip img src cat : String) : Article :=
  { id := vStr idv, title := vStr title, snippet := vStr snip, url := vStr "#",
    image := vStr img, publishedAt := vStr (isoString t), source := vStr src,
    category := vStr cat, aiSummary := vUndef }

def fallbackGeneral (t : Nat) : List Article :=
  [mkFallbackArticle t "fallback_gen_1" "Breaking: Major Policy Announcement Expected"
     "Government officials hint at significant policy changes in upcoming session."
     "https://via.placeholder.com/600x400?text=Breaking+News" "Newszoid" "general",
   mkFallbackArticle t "fallback_gen_2" "Technology Sector Shows Strong Growth"
     "Tech companies report record revenues as digital transformation accelerates."
     "https://via.placeholder.com/600x400?text=Tech+Growth" "Newszoid" "general"]

def fallbackIndia (t : Nat) : List Article :=
  [mkFallbackArticle t "fallback_in_1" "Supreme Court Reviews Constitutional Amendments"
     "The Supreme Court of India examines petitions challenging recent constitutional changes."
     "https://via.placeholder.com/600x400?text=Supreme+Court" "Newszoid India" "india",
   mkFallbackArticle t "fallback_in_2" "Parliament Passes Digital Privacy Bill"
     "Landmark legislation aims to protect citizen data rights in digital age."
     "https://via.placeholder.com/600x400?text=Parliament" "Newszoid India" "india",
   mkFallbackArticle t "fallback_in_3" "Infrastructure Development Gets Major Boost"
     "Government announces new funding for roads, railways, and urban infrastructure."
     "https://via.placeholder.com/600x400?text=Infrastructure" "Newszoid India" "india"]

def fallbackWorld (t : Nat) : List Article :=
  [mkFallbackArticle t "fallback_world_1" "Climate Summit Reaches Historic Agreement"
     "Global leaders commit to new climate fund and emission reduction targets."
     "https://via.placeholder.com/600x400?text=Climate+Summit" "Global News" "world",
   mkFallbackArticle t "fallback_world_2" "International Trade Agreements Signed"
     "Major economies finalize new trade partnerships to boost economic cooperation."
     "https://via.placeholder.com/600x400?text=Trade" "Global News" "world"]

def fallbackBusiness (t : Nat) : List Article :=
  [mkFallbackArticle t "fallback_biz_1" "Stock Markets Hit Record Highs"
     "Major indices surge as investor confidence strengthens amid positive earnings."
     "https://via.placeholder.com/600x400?text=Stock+Market" "Newszoid Business" "business",
   mkFallbackArticle t "fallback_biz_2" "Startup Ecosystem Attracts Record Investment"
     "Venture capital funding reaches new heights in technology and innovation sectors."
     "https://via.placeholder.com/600x400?text=Startups" "Newszoid Business" "business"]

def fallbackTechnology (t : Nat) : List Article :=
  [mkFallbackArticle t "fallback_tech_1" "AI Revolution Transforms Industries"
     "Artificial intelligence adoption accelerates across healthcare, finance, and manufacturing."
     "https://via.placeholder.com/600x400?text=AI" "Tech Daily" "technology",
   mkFallbackArticle t "fallback_tech_2" "Quantum Computing Breakthrough Announced"
     "Research teams achieve major milestone in quantum processor development."
     "https://via.placeholder.com/600x400?text=Quantum" "Tech Daily" "technology"]

def fallbackSports (t : Nat) : List Article :=
  [mkFallbackArticle t "fallback_sport_1" "Cricket World Cup Final Approaches"
     "Teams prepare for high-stakes championship match as fans worldwide anticipate."
     "https://via.placeholder.com/600x400?text=Cricket" "Sports Today" "sports",
   mkFallbackArticle t "fallback_sport_2" "Olympic Athletes Break Records"
     "Multiple world records fall as competition intensifies at international games."
     "https://via.placeholder.com/600x400?text=Olympics" "Sports Today" "sports"]

def fallbackEnvironment (t : Nat) : List Article :=
  [mkFallbackArticle t "fallback_env_1" "Renewable Energy Costs Continue to Drop"
     "Solar and wind power become most economical electricity sources globally."
     "https://via.placeholder.com/600x400?text=Renewable+Energy" "EcoWorld" "environment",
   mkFallbackArticle t "fallback_env_2" "Forest Conservation Efforts Expand"
     "New initiatives aim to protect biodiversity and combat deforestation."
     "https://via.placeholder.com/600x400?text=Forest" "EcoWorld" "environment"]

def fallbackEducation (t : Nat) : List Article :=
  [mkFallbackArticle t "fallback_edu_1" "Education Reform Focuses on Digital Skills"
     "Curriculum updates emphasize technology literacy and critical thinking."
     "https://via.placeholder.com/600x400?text=Education" "Education Today" "education",
   mkFallbackArticle t "fallback_edu_2" "Universities Launch New Research Programs"
     "Academic institutions expand offerings in emerging fields and interdisciplinary studies."
     "https://via.placeholder.com/600x400?text=University" "Education Today" "education"]

def fallbackHealth (t : Nat) : List Article :=
  [mkFallbackArticle t "fallback_health_1" "Medical Breakthrough in Cancer Treatment"
     "New therapy shows promising results in clinical trials for multiple cancer types."
     "https://via.placeholder.com/600x400?text=Medical+Research" "Health News" "health",
   mkFallbackArticle t "fallback_health_2" "Mental Health Awareness Programs Expand"
     "Communities invest in accessible mental health services and support systems."
     "https://via.placeholder.com/600x400?text=Mental+Health" "Health News" "health"]

def fallbackScience (t : Nat) : List Article :=
  [mkFallbackArticle t "fallback_sci_1" "Space Mission Discovers New Exoplanets"
     "Telescope identifies potentially habitable worlds in distant star systems."
     "https://via.placeholder.com/600x400?text=Space" "Science Daily" "science",
   mkFallbackArticle t "fallback_sci_2" "Particle Physics Experiment Yields Surprising Results"
     "Researchers detect unexpected phenomena in high-energy collider experiments."
     "https://via.placeholder.com/600x400?text=Physics" "Science Daily" "science"]

def fallbackEconomy (t : Nat) : List Article :=
  [mkFallbackArticle t "fallback_econ_1" "Central Bank Maintains Interest Rates"
     "Monetary policy remains steady as inflation shows signs of stabilization."
     "https://via.placeholder.com/600x400?text=Economy" "Economic Times" "economy",
   mkFallbackArticle t "fallback_econ_2" "GDP Growth Exceeds Expectations"
     "Economic expansion accelerates driven by consumer spending and investments."
     "https://via.placeholder.com/600x400?text=GDP" "Economic Times" "economy"]

def fallbackLegal (t : Nat) : List Article :=
  [mkFallbackArticle t "fallback_legal_1" "High Court Delivers Landmark Judgment"
     "Decision sets important precedent for civil rights and constitutional law."
     "https://via.placeholder.com/600x400?text=Court" "Legal News" "legal",
   mkFallbackArticle t "fallback_legal_2" "New Legislation Addresses Digital Rights"
     "Laws updated to reflect modern challenges in privacy and data protection."
     "https://via.placeholder.com/600x400?text=Law" "Legal News" "legal"]

def fallbackCulture (t : Nat) : List Article :=
  [mkFallbackArticle t "fallback_culture_1" "Film Festival Showcases International Cinema"
     "Diverse storytelling from around the world celebrated at annual event."
     "https://via.placeholder.com/600x400?text=Film+Festival" "Culture Beat" "culture",
   mkFallbackArticle t "fallback_culture_2" "Museum Exhibition Explores Ancient Civilizations"
     "Artifacts and interactive displays bring history to life for visitors."
     "https://via.placeholder.com/600x400?text=Museum" "Culture Beat" "culture"]

/-- Whether `HARDCODED_DATA.news` has an own property for the category. -/
def knownFallbackCategory (c : String) : Bool :=
  c = "general" || c = "india" || c = "world" || c = "business" ||
  c = "technology" || c = "sports" || c = "environment" || c = "education" ||
  c = "health" || c = "science" || c = "economy" || c = "legal" || c = "culture"

/-- Value of the fallback lookup
`HARDCODED_DATA.news[category] || HARDCODED_DATA.news.general || []`.
JavaScript bracket access on the object literal also reaches members
inherited from `Object.prototype`; since the category has been lowercased,
the reachable inherited members are exactly `constructor` (the `Object`
constructor, a truthy function) and `__proto__` (`Object.prototype`, a
truthy plain object).  Both are truthy, so `||` keeps them instead of
falling through to the `general` list. -/
inductive FallbackVal where
  | list (l : List Article)
  | protoConstructor
  | protoProto
deriving Repr

/-- How the `data` member of a `res.json` body serializes.  `JSON.stringify`
drops a function-valued property entirely and renders `Object.prototype`
(no own enumerable properties) as `{}`. -/
inductive DataShape where
  | jsonArray
  | keyDropped
  | emptyObject
deriving Repr, DecidableEq

/-- The article list carried by the serialized `data` member ([] when the
value was not an array of articles; `toShape` tells those cases apart). -/
def FallbackVal.toData : FallbackVal → List Article
  | .list l => l
  | .protoConstructor => []
  | .protoProto => []

def FallbackVal.toShape : FallbackVal → DataShape
  | .list _ => .jsonArray
  | .protoConstructor => .keyDropped
  | .protoProto => .emptyObject

/-- `HARDCODED_DATA.news[category] || HARDCODED_DATA.news.general || []`:
own properties first (they shadow the prototype), then the two reachable
inherited `Object.prototype` members, then `undefined` → the `general`
list. -/
def newsDataLookup (t : Nat) (c : String) : FallbackVal :=
  if c = "general" then .list (fallbackGeneral t)
  else if c = "india" then .list (fallbackIndia t)
  else if c = "world" then .list (fallbackWorld t)
  else if c = "business" then .list (fallbackBusiness t)
  else if c = "technology" then .list (fallbackTechnology t)
  else if c = "sports" then .list (fallbackSports t)
  else if c = "environment" then .list (fallbackEnvironment t)
  else if c = "education" then .list (fallbackEducation t)
  else if c = "health" then .list (fallbackHealth t)
  else if c = "science" then .list (fallbackScience t)
  else if c = "economy" then .list (fallbackEconomy t)
  else if c = "legal" then .list (fallbackLegal t)
  else if c = "culture" then .list (fallbackCulture t)
  else if c = "constructor" then .protoConstructor
  else if c = "__proto__" then .protoProto
  else .list (fallbackGeneral t)

-- ============================================================
-- Cache layer (node-cache with stdTTL).  An entry stores its value and its
-- absolute expiry time in milliseconds; a `get` past expiry is a miss.
-- ============================================================

/-- Key, value, absolute expiry time (ms). -/
abbrev CacheState := List (String × List Article × Nat)

def cacheGet (st : CacheState) (now : Nat) (key : String) :
    Option (List Article) :=
  match st.find? (fun e => e.1 == key) with
  | some e => if now ≤ e.2.2 then some e.2.1 else none
  | none => none

def cacheSet (st : CacheState) (now : Nat) (key : String)
    (v : List Article) (ttlMs : Nat) : CacheState :=
  (key, v, now + ttlMs) :: st.filter (fun e => e.1 != key)

-- ============================================================
-- The request-independent state of one controller process: configured
-- provider keys, the Gemini flag, the `enhanceWithGemini` outcome oracle,
-- the network oracle (outcome of `fetchWithRetry` on each built request),
-- a per-(request, item) environment stream for the clock/RNG reads inside
-- normalization, the module-load timestamp of the hardcoded data, and the
-- cache TTL.
-- ============================================================

structure World where
  gnewsKey : Option String
  guardianKey : Option String
  geminiEnabled : Bool
  geminiResult : String → Option String
  fetchResult : ProviderReq → Except Unit JsVal
  envAt : Nat → Nat → Env
  loadNow : Nat
  ttlMs : Nat

/-- Shape of one JSON response from the news endpoints.  A field that the
corresponding `res.json` call leaves out is `none`.  `dataShape` records how
the `data` member serializes: a JSON array of the articles in `data`, or —
when the served value was an inherited `Object.prototype` member — a dropped
key or an empty object, with `data` then empty and meaningless. -/
structure NewsResponse where
  status : Nat := 200
  ok : Bool
  fromCache : Option Bool := none
  aiEnabled : Option Bool := none
  isFallback : Option Bool := none
  error : Option String := none
  category : Option String := none
  location : Option String := none
  total : Option Int := none
  page : Option Int := none
  pageSize : Option Int := none
  data : List Article := []
  dataShape : DataShape := .jsonArray
deriving Repr

/-- Template-literal coercion `${v}` of a field value into the Gemini
prompt (array/object renderings are interface-level stand-ins; no theorem
inspects the prompt). -/
def jsToStr : JsVal → String
  | vStr s => s
  | vNull => "null"
  | vUndef => "undefined"
  | vNum n => toString n
  | vBool true => "true"
  | vBool false => "false"
  | vArr _ => "[array]"
  | vObj _ => "[object Object]"

/-- One article's fate under the fire-and-forget enrichment (lines 346-355):
`article.aiSummary = (await enhanceWithGemini(title + "\n" + (snippet || ""))) || null`,
with a thrown/failed call caught and the article left untouched.  The
oracle returns the text `enhanceWithGemini` resolved to (`none` = the call
threw). -/
def enrichArticle (w : World) (a : Article) : Article :=
  match w.geminiResult (jsToStr a.title ++ "\n"
      ++ (if truthy a.snippet then jsToStr a.snippet else "")) with
  | some s => { a with aiSummary := jsOr (vStr s) vNull }
  | none => a

/-- The Gemini block (newsController.js lines 344-357): when a model is
configured and there are articles, the first ≤ 5 article objects — the very
objects stored in the cache — get their `aiSummary` overwritten.  The
mutation is asynchronous (fire-and-forget); the response already sent
carries the pre-mutation articles, and this model commits the completed
mutation to the cache entry. -/
def enrichArticles (w : World) (l : List Article) : List Article :=
  if w.geminiEnabled && decide (0 < l.length) then
    (l.take 5).map (enrichArticle w) ++ l.drop 5
  else l

/-- Result of one controller invocation: the response, the cache afterwards,
and the provider requests actually dispatched upstream. -/
structure ControllerResult where
  resp : NewsResponse
  cacheAfter : CacheState
  fetchedReqs : List ProviderReq

-- ============================================================
-- exports.getNews (newsController.js lines 253-388)
-- ============================================================

def newsCacheKey (category : String) (page pageSize : Int) : String :=
  "news:" ++ category ++ ":p" ++ toString page ++ ":s" ++ toString pageSize

/-- Concurrent fan-out over the built requests (`Promise.allSettled` +
flatMap of the fulfilled values; the per-request closure catches its own
errors, so every promise fulfills). -/
def fetchAll (w : World) : Nat → List ProviderReq → List Article
  | _, [] => []
  | i, r :: t =>
    processRequest r.provider (w.fetchResult r) (w.envAt i) ++ fetchAll w (i + 1) t

/-- The fallback-substitution step (lines 331-335): the deduped merge when
nonempty, otherwise the value of the bracket lookup — which for the
prototype-member category names is not an array. -/
def newsSubstituted (w : World) (category : String) (page pageSize : Int) :
    FallbackVal :=
  let deduped := dedupByUrl (fetchAll w 0 (buildAPIRequests w.gnewsKey
    w.guardianKey (newsSearchQuery category) page pageSize))
  if deduped.length = 0 then newsDataLookup w.loadNow category else .list deduped

/-- The top-level catch of `getNews` (lines 373-387): HTTP 200, `ok: true`,
a diagnostic `error` member, and `data` set to the fallback lookup's value
(the category here is lowercased but NOT trimmed, unlike in the try block).
`reqs` records the upstream requests already dispatched before the
exception. -/
def getNewsCatch (w : World) (cache : CacheState) (categoryQ : Option String)
    (reqs : List ProviderReq) : ControllerResult :=
  let category := jsLower (categoryQ.getD "general")
  { resp := { ok := true, isFallback := some true,
              error := some "Using fallback data due to server error",
              category := some category,
              data := (newsDataLookup w.loadNow category).toData,
              dataShape := (newsDataLookup w.loadNow category).toShape },
    cacheAfter := cache, fetchedReqs := reqs }

/-- `exports.getNews` (lines 253-388).  `fault = true` models an unexpected
exception thrown at the start of the try block; additionally, when the
fallback substitution yields an inherited prototype member (category
`constructor`/`__proto__` with an empty merge), `articles.sort` throws a
TypeError and execution reaches the same catch — with the requests already
dispatched and nothing written to the cache. -/
def getNews (w : World) (cache : CacheState) (now : Nat) (fault : Bool)
    (categoryQ : Option String) (pageQ pageSizeQ : Option Int) :
    ControllerResult :=
  if fault then getNewsCatch w cache categoryQ []
  else
    let category := jsTrim (jsLower (categoryQ.getD "general"))
    let page := max 1 (pageQ.getD 1)
    let pageSize := min 50 (max 1 (pageSizeQ.getD 10))
    let cacheKey := newsCacheKey category page pageSize
    match cacheGet cache now cacheKey with
    | some cached =>
      { resp := { ok := true, fromCache := some true,
                  aiEnabled := some w.geminiEnabled,
                  category := some category, data := cached },
        cacheAfter := cache, fetchedReqs := [] }
    | none =>
      let requests := buildAPIRequests w.gnewsKey w.guardianKey
        (newsSearchQuery category) page pageSize
      if requests.length = 0 then
        { resp := { ok := true, fromCache := some false, isFallback := some true,
                    category := some category,
                    data := (newsDataLookup w.loadNow category).toData,
                    dataShape := (newsDataLookup w.loadNow category).toShape },
          cacheAfter := cache, fetchedReqs := [] }
      else
        match newsSubstituted w category page pageSize with
        | .list articles =>
          let limited := (sortByDateDesc articles).take pageSize.toNat
          { resp := { ok := true, fromCache := some false,
                      aiEnabled := some w.geminiEnabled,
                      category := some category,
                      total := some (Int.ofNat limited.length),
                      page := some page, pageSize := some pageSize,
                      data := limited },
            cacheAfter := cacheSet cache now cacheKey
              (enrichArticles w limited) w.ttlMs,
            fetchedReqs := requests }
        | .protoConstructor => getNewsCatch w cache categoryQ requests
        | .protoProto => getNewsCatch w cache categoryQ requests

-- ============================================================
-- exports.getLocalNews (newsController.js lines 393-506)
-- ============================================================

def localCacheKey (location : String) (page pageSize : Int) : String :=
  "local:" ++ location ++ ":p" ++ toString page ++ ":s" ++ toString pageSize

/-- The single canned record returned when no provider is configured for
local news (lines 424-440); `now` feeds its `new Date().toISOString()`. -/
def localFallbackArticle (location : String) (now : Nat) : Article :=
  { id := vStr "local_fallback_1",
    title := vStr (location ++ " Metro expansion plans announced"),
    snippet := vStr "Local authorities have approved new infrastructure projects.",
    url := vStr "#",
    image := vStr "https://via.placeholder.com/600x400?text=Local+News",
    publishedAt := vStr (isoString now),
    source := vStr "Newszoid Local",
    category := vUndef, aiSummary := vUndef }

/-- `Object.keys(INDIAN_CITIES).find(key => location.includes(key) ||
key.includes(location))` (the location is already lowercased). -/
def findCityKey (location : String) : Option String :=
  indianCityKeys.find? (fun key =>
    jsIncludes (jsLower location) key || jsIncludes key (jsLower location))

/-- `exports.getLocalNews`.  Unlike `getNews`, its top-level catch responds
with HTTP 500 and `ok: false`. -/
def getLocalNews (w : World) (cache : CacheState) (now : Nat) (fault : Bool)
    (locationQ : Option String) (pageQ pageSizeQ : Option Int) :
    ControllerResult :=
  if fault then
    { resp := { status := 500, ok := false,
                error := some "Failed to fetch local news",
                location := some (locationQ.getD "Delhi"), data := [] },
      cacheAfter := cache, fetchedReqs := [] }
  else
    let location := jsTrim (jsLower (locationQ.getD "Delhi"))
    let page := max 1 (pageQ.getD 1)
    let pageSize := min 20 (max 1 (pageSizeQ.getD 5))
    let cacheKey := localCacheKey location page pageSize
    match cacheGet cache now cacheKey with
    | some cached =>
      { resp := { ok := true, fromCache := some true, location := some location,
                  data := cached },
        cacheAfter := cache, fetchedReqs := [] }
    | none =>
      let searchQuery :=
        match findCityKey location with
        | some key => indianCityQuery key
        | none => location ++ " India local news"
      let requests := buildAPIRequests w.gnewsKey w.guardianKey searchQuery
        page pageSize
      if requests.length = 0 then
        { resp := { ok := true, isFallback := some true,
                    location := some location,
                    data := [localFallbackArticle location now] },
          cacheAfter := cache, fetchedReqs := [] }
      else
        let merged := fetchAll w 0 requests
        let deduped := dedupByUrl merged
        let limited := (sortByDateDesc deduped).take pageSize.toNat
        { resp := { ok := true, fromCache := some false,
                    location := some location,
                    total := some (Int.ofNat limited.length), data := limited },
          cacheAfter := cacheSet cache now cacheKey limited w.ttlMs,
          fetchedReqs := requests }

-- ============================================================
-- Route-level validation for GET /api/news (routes/news.js lines 28-48):
-- express-validator rejects out-of-bounds parameters with a 400 before the
-- controller runs.
-- ============================================================

def validNewsQuery (categoryQ : Option String) (pageQ pageSizeQ : Option Int) :
    Bool :=
  (categoryQ.all fun c => 1 ≤ (jsTrim c).length && (jsTrim c).length ≤ 50) &&
  (pageQ.all fun p => 1 ≤ p && p ≤ 100) &&
  (pageSizeQ.all fun s => 1 ≤ s && s ≤ 50)

/-- GET /api/news: validation middleware followed by the controller. -/
def newsEndpoint (w : World) (cache : CacheState) (now : Nat) (fault : Bool)
    (categoryQ : Option String) (pageQ pageSizeQ : Option Int) :
    ControllerResult :=
  if validNewsQuery categoryQ pageQ pageSizeQ then
    getNews w cache now fault categoryQ pageQ pageSizeQ
  else
    { resp := { status := 400, ok := false, data := [] },
      cacheAfter := cache, fetchedReqs := [] }

-- ============================================================
-- fetchWithRetry (newsController.js lines 153-170).  The network is an
-- oracle giving each attempt's outcome; the trace records the timeout
-- passed to axios on each attempt and every backoff sleep performed.
-- ============================================================

structure RetryTrace (ε δ : Type) where
  result : Except ε δ
  attemptTimeouts : List Nat
  waits : List Nat
deriving Repr

/-- Attempts `i, i+1, ..., i+n`; attempt `i+n` is the last one (`i === retries`). -/
def retryAux (f : Nat → Except ε δ) (i : Nat) : Nat → RetryTrace ε δ
  | 0 => { result := f i, attemptTimeouts := [8000], waits := [] }
  | n + 1 =>
    match f i with
    | .ok d => { result := .ok d, attemptTimeouts := [8000], waits := [] }
    | .error _ =>
      let rest := retryAux f (i + 1) n
      { result := rest.result,
        attemptTimeouts := 8000 :: rest.attemptTimeouts,
        waits := 1000 * (i + 1) :: rest.waits }

/-- `fetchWithRetry(url, options, retries)` with the per-attempt outcomes
abstracted into `f`. -/
def fetchWithRetry (f : Nat → Except ε δ) (retries : Nat) : RetryTrace ε δ :=
  retryAux f 0 retries

/-- Total counterpart of `getFieldOpt` (`v?.name`), for statements. -/
def jsFieldOpt (v : JsVal) (name : String) : JsVal :=
  match v with
  | vNull => vUndef
  | vUndef => vUndef
  | vObj fs => objLookup fs name
  | _ => vUndef

/-- Sufficient condition for a raw item to normalize independently of the
clock/RNG: the fields whose absence would trigger a generated id or a
current-time `publishedAt` are all present and truthy. -/
def envFreeInput (src : String) (raw : JsVal) : Bool :=
  match raw with
  | vNull => true
  | vUndef => true
  | vObj fs =>
    if src = "gnews" then
      truthy (objLookup fs "url") && truthy (objLookup fs "publishedAt")
    else if src = "guardian" then
      truthy (objLookup fs "id") && truthy (objLookup fs "webPublicationDate")
    else
      (truthy (objLookup fs "url") || truthy (objLookup fs "id"))
      && truthy (objLookup fs "publishedAt")
  | _ => false

-- ============================================================
-- Concrete scenario data used by the closed witnesses/counterexamples:
-- two-provider worlds with small canned upstream payloads.
-- ============================================================

/-- A gnews payload whose single article's url collides with the guardian
item's provider id below. -/
def gnewsPayloadSharedId : JsVal :=
  vObj [("articles", vArr [
    vObj [("url", vStr "https://a.com/x"), ("title", vStr "T1"),
          ("publishedAt", vStr "5")]])]

/-- A guardian payload with three usable, url-distinct results. -/
def guardianPayloadThree : JsVal :=
  vObj [("response", vObj [("results", vArr [
    vObj [("id", vStr "g1"), ("webUrl", vStr "https://g.com/1"),
          ("webPublicationDate", vStr "3")],
    vObj [("id", vStr "g2"), ("webUrl", vStr "https://g.com/2"),
          ("webPublicationDate", vStr "9")],
    vObj [("id", vStr "g3"), ("webUrl", vStr "https://g.com/3"),
          ("webPublicationDate", vStr "6")]])])]

/-- Both providers configured; gnews times out (fetch error after retries),
guardian delivers three usable articles. -/
def partialFailureWorld : World :=
  { gnewsKey := some "k1", guardianKey := some "k2", geminiEnabled := false,
    geminiResult := fun _ => none,
    fetchResult := fun r =>
      if r.provider == "gnews" then .error () else .ok guardianPayloadThree,
    envAt := fun _ _ => ⟨0, "r"⟩, loadNow := 7, ttlMs := 300000 }

/-- A gnews payload with two usable items, neither carrying a url. -/
def gnewsPayloadNoUrls : JsVal :=
  vObj [("articles", vArr [
    vObj [("title", vStr "N1")],
    vObj [("title", vStr "N2")]])]

/-- Only gnews configured; its items lack urls, and the clock/RNG stream
gives every normalization call a distinct draw. -/
def noUrlWorld : World :=
  { gnewsKey := some "k1", guardianKey := none, geminiEnabled := false,
    geminiResult := fun _ => none,
    fetchResult := fun _ => .ok gnewsPayloadNoUrls,
    envAt := fun _ j => ⟨j, toString j⟩, loadNow := 7, ttlMs := 300000 }

/-- Only gnews configured with a single-article payload; used for the cache
round-trip witness. -/
def cachingWorld : World :=
  { gnewsKey := some "k1", guardianKey := none, geminiEnabled := false,
    geminiResult := fun _ => none,
    fetchResult := fun _ => .ok gnewsPayloadSharedId,
    envAt := fun _ _ => ⟨0, "r"⟩, loadNow := 7, ttlMs := 300000 }

/-- No provider credentials configured at all. -/
def noProviderWorld : World :=
  { gnewsKey := none, guardianKey := none, geminiEnabled := false,
    geminiResult := fun _ => none,
    fetchResult := fun _ => .error (), envAt := fun _ _ => ⟨0, "r"⟩,
    loadNow := 7, ttlMs := 300000 }

-- ============================================================
-- Helper lemmas
-- ============================================================

theorem jsOr_truthy (a b : JsVal) (h : truthy a = true) : jsOr a b = a := by
  simp [jsOr, h]

theorem jsOr_falsy (a b : JsVal) (h : truthy a = false) : jsOr a b = b := by
  simp [jsOr, h]

theorem insertByDate_perm (a : Article) (l : List Article) :
    List.Perm (insertByDate a l) (a :: l) := by
  induction l with
  | nil => exact List.Perm.refl _
  | cons b t ih =>
    unfold insertByDate
    split
    · exact List.Perm.refl _
    · exact (List.Perm.cons b ih).trans (List.Perm.swap a b t)

theorem sortByDateDesc_perm (l : List Article) :
    List.Perm (sortByDateDesc l) l := by
  induction l with
  | nil => exact List.Perm.refl _
  | cons a t ih =>
    exact (insertByDate_perm a (sortByDateDesc t)).trans (List.Perm.cons a ih)

theorem fallbackGeneral_length (t : Nat) : (fallbackGeneral t).length = 2 := rfl

theorem fallbackIndia_length (t : Nat) : (fallbackIndia t).length = 3 := rfl

theorem fallbackWorld_length (t : Nat) : (fallbackWorld t).length = 2 := rfl

theorem fallbackBusiness_length (t : Nat) : (fallbackBusiness t).length = 2 := rfl

theorem fallbackTechnology_length (t : Nat) : (fallbackTechnology t).length = 2 := rfl

theorem fallbackSports_length (t : Nat) : (fallbackSports t).length = 2 := rfl

theorem fallbackEnvironment_length (t : Nat) : (fallbackEnvironment t).length = 2 := rfl

theorem fallbackEducation_length (t : Nat) : (fallbackEducation t).length = 2 := rfl

theorem fallbackHealth_length (t : Nat) : (fallbackHealth t).length = 2 := rfl

theorem fallbackScience_length (t : Nat) : (fallbackScience t).length = 2 := rfl

theorem fallbackEconomy_length (t : Nat) : (fallbackEconomy t).length = 2 := rfl

theorem fallbackLegal_length (t : Nat) : (fallbackLegal t).length = 2 := rfl

theorem fallbackCulture_length (t : Nat) : (fallbackCulture t).length = 2 := rfl

theorem newsDataLookup_cases (t : Nat) (c : String) :
    (newsDataLookup t c = .protoConstructor ∧ c = "constructor")
    ∨ (newsDataLookup t c = .protoProto ∧ c = "__proto__")
    ∨ (∃ l, newsDataLookup t c = .list l ∧ 0 < l.length ∧ l.length ≤ 3) := by
  rw [newsDataLookup]
  by_cases h1 : c = "general"
  · rw [if_pos h1]
    exact Or.inr (Or.inr ⟨_, rfl, by simp [fallbackGeneral_length],
      by simp [fallbackGeneral_length]⟩)
  rw [if_neg h1]
  by_cases h2 : c = "india"
  · rw [if_pos h2]
    exact Or.inr (Or.inr ⟨_, rfl, by simp [fallbackIndia_length],
      by simp [fallbackIndia_length]⟩)
  rw [if_neg h2]
  by_cases h3 : c = "world"
  · rw [if_pos h3]
    exact Or.inr (Or.inr ⟨_, rfl, by simp [fallbackWorld_length],
      by simp [fallbackWorld_length]⟩)
  rw [if_neg h3]
  by_cases h4 : c = "business"
  · rw [if_pos h4]
    exact Or.inr (Or.inr ⟨_, rfl, by simp [fallbackBusiness_length],
      by simp [fallbackBusiness_length]⟩)
  rw [if_neg h4]
  by_cases h5 : c = "technology"
  · rw [if_pos h5]
    exact Or.inr (Or.inr ⟨_, rfl, by simp [fallbackTechnology_length],
      by simp [fallbackTechnology_length]⟩)
  rw [if_neg h5]
  by_cases h6 : c = "sports"
  · rw [if_pos h6]
    exact Or.inr (Or.inr ⟨_, rfl, by simp [fallbackSports_length],
      by simp [fallbackSports_length]⟩)
  rw [if_neg h6]
  by_cases h7 : c = "environment"
  · rw [if_pos h7]
    exact Or.inr (Or.inr ⟨_, rfl, by simp [fallbackEnvironment_length],
      by simp [fallbackEnvironment_length]⟩)
  rw [if_neg h7]
  by_cases h8 : c = "education"
  · rw [if_pos h8]
    exact Or.inr (Or.inr ⟨_, rfl, by simp [fallbackEducation_length],
      by simp [fallbackEducation_length]⟩)
  rw [if_neg h8]
  by_cases h9 : c = "health"
  · rw [if_pos h9]
    exact Or.inr (Or.inr ⟨_, rfl, by simp [fallbackHealth_length],
      by simp [fallbackHealth_length]⟩)
  rw [if_neg h9]
  by_cases h10 : c = "science"
  · rw [if_pos h10]
    exact Or.inr (Or.inr ⟨_, rfl, by simp [fallbackScience_length],
      by simp [fallbackScience_length]⟩)
  rw [if_neg h10]
  by_cases h11 : c = "economy"
  · rw [if_pos h11]
    exact Or.inr (Or.inr ⟨_, rfl, by simp [fallbackEconomy_length],
      by simp [fallbackEconomy_length]⟩)
  rw [if_neg h11]
  by_cases h12 : c = "legal"
  · rw [if_pos h12]
    exact Or.inr (Or.inr ⟨_, rfl, by simp [fallbackLegal_length],
      by simp [fallbackLegal_length]⟩)
  rw [if_neg h12]
  by_cases h13 : c = "culture"
  · rw [if_pos h13]
    exact Or.inr (Or.inr ⟨_, rfl, by simp [fallbackCulture_length],
      by simp [fallbackCulture_length]⟩)
  rw [if_neg h13]
  by_cases h14 : c = "constructor"
  · rw [if_pos h14]
    exact Or.inl ⟨rfl, h14⟩
  rw [if_neg h14]
  by_cases h15 : c = "__proto__"
  · rw [if_pos h15]
    exact Or.inr (Or.inl ⟨rfl, h15⟩)
  rw [if_neg h15]
  exact Or.inr (Or.inr ⟨_, rfl, by simp [fallbackGeneral_length],
    by simp [fallbackGeneral_length]⟩)

theorem newsDataLookup_toData_le (t : Nat) (c : String) :
    (newsDataLookup t c).toData.length ≤ 3 := by
  rcases newsDataLookup_cases t c with ⟨h, _⟩ | ⟨h, _⟩ | ⟨l, h, _, hle⟩
  · rw [h]; simp [FallbackVal.toData]
  · rw [h]; simp [FallbackVal.toData]
  · rw [h]; simpa [FallbackVal.toData] using hle

theorem newsDataLookup_ordinary (t : Nat) (c : String)
    (h1 : c ≠ "constructor") (h2 : c ≠ "__proto__") :
    newsDataLookup t c = .list ((newsDataLookup t c).toData)
    ∧ 0 < (newsDataLookup t c).toData.length := by
  rcases newsDataLookup_cases t c with ⟨_, hc⟩ | ⟨_, hc⟩ | ⟨l, h, hpos, _⟩
  · exact absurd hc h1
  · exact absurd hc h2
  · rw [h]
    exact ⟨rfl, by simpa [FallbackVal.toData] using hpos⟩

theorem newsDataLookup_unknown (t : Nat) (c : String)
    (h : knownFallbackCategory c = false) (h1 : c ≠ "constructor")
    (h2 : c ≠ "__proto__") :
    newsDataLookup t c = .list (fallbackGeneral t) := by
  rw [knownFallbackCategory] at h
  simp only [Bool.or_eq_false_iff, decide_eq_false_iff_not] at h
  obtain ⟨⟨⟨⟨⟨⟨⟨⟨⟨⟨⟨⟨k1, k2⟩, k3⟩, k4⟩, k5⟩, k6⟩, k7⟩, k8⟩, k9⟩, k10⟩, k11⟩, k12⟩, k13⟩ := h
  rw [newsDataLookup, if_neg k1, if_neg k2, if_neg k3, if_neg k4, if_neg k5,
    if_neg k6, if_neg k7, if_neg k8, if_neg k9, if_neg k10, if_neg k11,
    if_neg k12, if_neg k13, if_neg h1, if_neg h2]

theorem newsDataLookup_technology (t : Nat) :
    newsDataLookup t "technology" = .list (fallbackTechnology t) := rfl

theorem retryAux_spec (f : Nat → Except ε δ) :
    ∀ (n i : Nat),
      1 ≤ (retryAux f i n).attemptTimeouts.length
      ∧ (retryAux f i n).attemptTimeouts.length ≤ n + 1
      ∧ (∀ x ∈ (retryAux f i n).attemptTimeouts, x = 8000)
      ∧ (retryAux f i n).waits
          = (List.range ((retryAux f i n).attemptTimeouts.length - 1)).map
              (fun j => 1000 * (i + j + 1))
      ∧ ((∀ j, j ≤ n → (f (i + j)).toOption = none) →
          (retryAux f i n).result = f (i + n)) := by
  intro n
  induction n with
  | zero =>
    intro i
    refine ⟨by simp [retryAux], by simp [retryAux], by simp [retryAux],
      by simp [retryAux], fun _ => by simp [retryAux]⟩
  | succ n ih =>
    intro i
    cases hf : f i with
    | ok d =>
      refine ⟨by simp [retryAux, hf], by simp [retryAux, hf],
        by simp [retryAux, hf], by simp [retryAux, hf], ?_⟩
      intro h
      exfalso
      have h0 := h 0 (Nat.zero_le _)
      rw [Nat.add_zero, hf] at h0
      simp [Except.toOption] at h0
    | error e =>
      obtain ⟨ih1, ih2, ih3, ih4, ih5⟩ := ih (i + 1)
      refine ⟨?_, ?_, ?_, ?_, ?_⟩
      · simp [retryAux, hf]
      · simp only [retryAux, hf]
        simpa using Nat.succ_le_succ ih2
      · simp only [retryAux, hf]
        intro x hx
        rcases List.mem_cons.mp hx with rfl | hx'
        · rfl
        · exact ih3 x hx'
      · simp only [retryAux, hf, List.length_cons, Nat.add_sub_cancel]
        obtain ⟨k, hk⟩ := Nat.exists_eq_add_of_le ih1
        have hlen : (retryAux f (i + 1) n).attemptTimeouts.length = k + 1 := by
          omega
        rw [ih4, hlen, List.range_succ_eq_map]
        simp only [List.map_cons, List.map_map, Nat.add_sub_cancel]
        refine List.cons_eq_cons.mpr ⟨by omega, ?_⟩
        apply List.map_congr_left
        intro j _
        simp only [Function.comp_apply]
        omega
      · intro h
        simp only [retryAux, hf]
        have hrest : ∀ j, j ≤ n → (f (i + 1 + j)).toOption = none := by
          intro j hj
          have := h (j + 1) (Nat.succ_le_succ hj)
          rwa [show i + (j + 1) = i + 1 + j by omega] at this
        have := ih5 hrest
        rwa [show i + 1 + n = i + (n + 1) by omega] at this

/-- C8: `fetchWithRetry(url, options, maxRetries)` performs at most
`maxRetries + 1` attempts, each passed an 8000 ms timeout; after the k-th
failed attempt (1-based) it sleeps k * 1000 ms before the next attempt; and
when every attempt fails, the error surfaced to the caller is the final
attempt's error. -/
theorem fetchWithRetry_retry_policy (f : Nat → Except ε δ) (retries : Nat) :
    (fetchWithRetry f retries).attemptTimeouts.length ≤ retries + 1
    ∧ (∀ x ∈ (fetchWithRetry f retries).attemptTimeouts, x = 8000)
    ∧ (fetchWithRetry f retries).waits
        = (List.range ((fetchWithRetry f retries).attemptTimeouts.length - 1)).map
            (fun j => 1000 * (j + 1))
    ∧ ((∀ j, j ≤ retries → (f j).toOption = none) →
        (fetchWithRetry f retries).result = f retries) := by
  obtain ⟨h1, h2, h3, h4, h5⟩ := retryAux_spec f retries 0
  refine ⟨h2, h3, ?_, fun h => by simpa using h5 (by simpa using h)⟩
  rw [fetchWithRetry, h4]
  apply List.map_congr_left
  intro j _
  omega

/-- Witness for C8: with every attempt failing (`f k = error k`) and
`retries = 2`, the surfaced error is attempt 2's error. -/
theorem fetchWithRetry_retry_policy_witness :
    (∀ j, j ≤ 2 → ((fun k => (Except.error k : Except Nat Nat)) j).toOption = none)
    ∧ (fetchWithRetry (fun k => (Except.error k : Except Nat Nat)) 2).result
        = Except.error 2 :=
  ⟨by decide,
   (fetchWithRetry_retry_policy (fun k => (Except.error k : Except Nat Nat)) 2).2.2.2
     (by decide)⟩

/-- C1 (amended): on an unexpected internal error, `getNews` still answers
with HTTP 200, `ok = true`, `isFallback = true`, a diagnostic `error` field,
and the fallback lookup's value as data — the canned list for ordinary
categories; for the prototype-member category names `constructor` and
`__proto__` the inherited member, which JSON serialization drops or renders
as an empty object.  `getLocalNews`, however, answers such an error with
HTTP 500, `ok = false` and empty data — the "no server errors on read
paths" contract holds only for the category-news endpoint. -/
theorem getNews_fault_contract (w : World) (cache : CacheState) (now : Nat)
    (categoryQ locationQ : Option String) (pageQ pageSizeQ : Option Int) :
    ((getNews w cache now true categoryQ pageQ pageSizeQ).resp.status = 200
      ∧ (getNews w cache now true categoryQ pageQ pageSizeQ).resp.ok = true
      ∧ (getNews w cache now true categoryQ pageQ pageSizeQ).resp.isFallback
          = some true
      ∧ (getNews w cache now true categoryQ pageQ pageSizeQ).resp.error
          = some "Using fallback data due to server error"
      ∧ (getNews w cache now true categoryQ pageQ pageSizeQ).resp.data
          = (newsDataLookup w.loadNow (jsLower (categoryQ.getD "general"))).toData
      ∧ (getNews w cache now true categoryQ pageQ pageSizeQ).resp.dataShape
          = (newsDataLookup w.loadNow (jsLower (categoryQ.getD "general"))).toShape)
    ∧ ((getLocalNews w cache now true locationQ pageQ pageSizeQ).resp.status = 500
      ∧ (getLocalNews w cache now true locationQ pageQ pageSizeQ).resp.ok = false
      ∧ (getLocalNews w cache now true locationQ pageQ pageSizeQ).resp.data = []) :=
  ⟨⟨rfl, rfl, rfl, rfl, rfl, rfl⟩, ⟨rfl, rfl, rfl⟩⟩

/-- C1 is false as stated: at a concrete world in which an unexpected
internal error strikes during local-news aggregation, the response carries
HTTP status 500 with `ok = false` — a server-error status on a read path. -/
theorem getLocalNews_fault_counterexample :
    (getLocalNews
        ⟨none, none, false, fun _ => none, fun _ => .error (), fun _ _ => ⟨0, ""⟩, 0, 300000⟩
        [] 0 true none none none).resp.status = 500
    ∧ (getLocalNews
        ⟨none, none, false, fun _ => none, fun _ => .error (), fun _ _ => ⟨0, ""⟩, 0, 300000⟩
        [] 0 true none none none).resp.ok = false :=
  ⟨rfl, rfl⟩

theorem buildAPIRequests_none (searchQuery : String) (page pageSize : Int) :
    buildAPIRequests none none searchQuery page pageSize = [] := rfl

/-- C4 is false as stated: `constructor` is a valid 1-50-character category,
but with no providers configured the program serves the truthy inherited
`Object.prototype.constructor` instead of a fallback list — the serialized
response has no `data` array at all, in particular not the `general` list
the claim promises for unknown categories. -/
theorem getNews_prototype_category_counterexample :
    (getNews noProviderWorld [] 0 false (some "constructor") none none).resp.isFallback
      = some true
    ∧ (getNews noProviderWorld [] 0 false (some "constructor")
        none none).resp.dataShape = DataShape.keyDropped
    ∧ (getNews noProviderWorld [] 0 false (some "constructor")
        none none).resp.data = []
    ∧ (getNews noProviderWorld [] 0 false (some "constructor")
        none none).resp.data ≠ fallbackGeneral noProviderWorld.loadNow := by
  refine ⟨rfl, rfl, rfl, ?_⟩
  intro h
  have hlen := congrArg List.length h
  rw [show ((getNews noProviderWorld [] 0 false (some "constructor")
      none none).resp.data).length = 0 from rfl, fallbackGeneral_length] at hlen
  exact absurd hlen (by decide)

/-- C4 (amended): with no provider credentials configured and a cache miss,
for every category whose canonical form is not an inherited
`Object.prototype` member name (`constructor`, `__proto__`), `getNews`
marks the response `isFallback = true` and serves the fallback lookup's
list — non-empty, the `general` list when the category has no own entry —
and category `technology` yields exactly the two canned technology
articles.  At the two prototype names the program instead serves the
inherited member (see the counterexample). -/
theorem getNews_no_providers_fallback (w : World) (cache : CacheState)
    (now : Nat) (categoryQ : Option String) (pageQ pageSizeQ : Option Int)
    (hg : w.gnewsKey = none) (hgu : w.guardianKey = none)
    (hmiss : cacheGet cache now
      (newsCacheKey (jsTrim (jsLower (categoryQ.getD "general")))
        (max 1 (pageQ.getD 1)) (min 50 (max 1 (pageSizeQ.getD 10)))) = none)
    (hc1 : jsTrim (jsLower (categoryQ.getD "general")) ≠ "constructor")
    (hc2 : jsTrim (jsLower (categoryQ.getD "general")) ≠ "__proto__") :
    (getNews w cache now false categoryQ pageQ pageSizeQ).resp.ok = true
    ∧ (getNews w cache now false categoryQ pageQ pageSizeQ).resp.isFallback
        = some true
    ∧ (getNews w cache now false categoryQ pageQ pageSizeQ).resp.dataShape
        = DataShape.jsonArray
    ∧ FallbackVal.list ((getNews w cache now false categoryQ pageQ pageSizeQ).resp.data)
        = newsDataLookup w.loadNow (jsTrim (jsLower (categoryQ.getD "general")))
    ∧ 0 < (getNews w cache now false categoryQ pageQ pageSizeQ).resp.data.length
    ∧ (categoryQ = some "technology" →
        (getNews w cache now false categoryQ pageQ pageSizeQ).resp.data
          = fallbackTechnology w.loadNow)
    ∧ (knownFallbackCategory (jsTrim (jsLower (categoryQ.getD "general"))) = false →
        (getNews w cache now false categoryQ pageQ pageSizeQ).resp.data
          = fallbackGeneral w.loadNow) := by
  have hred : getNews w cache now false categoryQ pageQ pageSizeQ
      = { resp := { ok := true, fromCache := some false, isFallback := some true,
                    category := some (jsTrim (jsLower (categoryQ.getD "general"))),
                    data := (newsDataLookup w.loadNow
                      (jsTrim (jsLower (categoryQ.getD "general")))).toData,
                    dataShape := (newsDataLookup w.loadNow
                      (jsTrim (jsLower (categoryQ.getD "general")))).toShape },
          cacheAfter := cache, fetchedReqs := [] } := by
    simp only [getNews, Bool.false_eq_true, if_false, hmiss, hg, hgu,
      buildAPIRequests_none, List.length_nil, if_pos]
  obtain ⟨hlist, hpos⟩ := newsDataLookup_ordinary w.loadNow
    (jsTrim (jsLower (categoryQ.getD "general"))) hc1 hc2
  refine ⟨by rw [hred], by rw [hred], ?_, ?_, ?_, ?_, ?_⟩
  · rw [hred]
    show (newsDataLookup w.loadNow
      (jsTrim (jsLower (categoryQ.getD "general")))).toShape = DataShape.jsonArray
    rw [hlist]
    rfl
  · rw [hred]
    exact hlist.symm
  · rw [hred]
    exact hpos
  · intro hq
    rw [hred]
    subst hq
    rfl
  · intro hunknown
    rw [hred]
    rw [newsDataLookup_unknown w.loadNow _ hunknown hc1 hc2]
    rfl

/-- Witness for C4 (amended): category `technology`, no keys configured,
cold cache. -/
theorem getNews_no_providers_fallback_witness :
    (⟨none, none, false, fun _ => none, fun _ => .error (), fun _ _ => ⟨0, ""⟩, 7, 300000⟩
        : World).gnewsKey = none
    ∧ cacheGet [] 0 (newsCacheKey "technology" 1 10) = none
    ∧ jsTrim (jsLower ((some "technology" : Option String).getD "general"))
        ≠ "constructor"
    ∧ (getNews
        ⟨none, none, false, fun _ => none, fun _ => .error (), fun _ _ => ⟨0, ""⟩, 7, 300000⟩
        [] 0 false (some "technology") none none).resp.isFallback = some true
    ∧ (getNews
        ⟨none, none, false, fun _ => none, fun _ => .error (), fun _ _ => ⟨0, ""⟩, 7, 300000⟩
        [] 0 false (some "technology") none none).resp.data
        = fallbackTechnology 7 :=
  ⟨rfl, rfl, by decide,
   (getNews_no_providers_fallback
     ⟨none, none, false, fun _ => none, fun _ => .error (), fun _ _ => ⟨0, ""⟩, 7, 300000⟩
     [] 0 (some "technology") none none rfl rfl rfl (by decide) (by decide)).2.1,
   (getNews_no_providers_fallback
     ⟨none, none, false, fun _ => none, fun _ => .error (), fun _ _ => ⟨0, ""⟩, 7, 300000⟩
     [] 0 (some "technology") none none rfl rfl rfl (by decide)
     (by decide)).2.2.2.2.2.1 rfl⟩

theorem getFieldOpt_eq (v : JsVal) (n : String) :
    getFieldOpt v n = .ok (jsFieldOpt v n) := by
  cases v <;> rfl

theorem exceptOkBind {α β : Type} (a : α) (f : α → Except Unit β) :
    (Except.ok a >>= f) = f a := rfl

theorem exceptErrBind {α β : Type} (e : Unit) (f : α → Except Unit β) :
    (Except.error e >>= f) = (Except.error e : Except Unit β) := rfl

theorem exceptPureEq {α : Type} (a : α) : (pure a : Except Unit α) = Except.ok a := rfl

theorem gnewsBody_obj (fs : List (String × JsVal)) (env : Env) :
    gnewsBody (vObj fs) env = .ok {
      id := jsOr (objLookup fs "url")
        (vStr ("gnews_" ++ toString env.nowMs ++ "_" ++ env.rand)),
      title := jsOr (objLookup fs "title") (vStr "Untitled"),
      snippet := if truthy (objLookup fs "description") then objLookup fs "description"
        else jsOr (objLookup fs "content") (vStr ""),
      url := jsOr (objLookup fs "url") (vStr "#"),
      image := jsOr (objLookup fs "image")
        (vStr "https://via.placeholder.com/600x400?text=News"),
      publishedAt := jsOr (objLookup fs "publishedAt") (vStr (isoString env.nowMs)),
      source := jsOr (jsFieldOpt (objLookup fs "source") "name") (vStr "GNews"),
      category := jsOr (objLookup fs "category") (vStr "general"),
      aiSummary := vNull } := by
  by_cases hd : truthy (objLookup fs "description") = true
  · simp only [gnewsBody, getField, getFieldOpt_eq, exceptOkBind, exceptPureEq,
      hd, if_true]
  · simp only [Bool.not_eq_true] at hd
    simp only [gnewsBody, getField, getFieldOpt_eq, exceptOkBind, exceptPureEq,
      hd, Bool.false_eq_true, if_false]

theorem defaultBody_obj (fs : List (String × JsVal)) (env : Env) :
    defaultBody (vObj fs) env = .ok {
      id := if truthy (objLookup fs "url") then objLookup fs "url"
        else jsOr (objLookup fs "id")
          (vStr ("news_" ++ toString env.nowMs ++ "_" ++ env.rand)),
      title := jsOr (objLookup fs "title") (vStr "Untitled"),
      snippet := if truthy (objLookup fs "description") then objLookup fs "description"
        else jsOr (objLookup fs "snippet") (vStr ""),
      url := jsOr (objLookup fs "url") (vStr "#"),
      image := jsOr (objLookup fs "image")
        (vStr "https://via.placeholder.com/600x400?text=News"),
      publishedAt := jsOr (objLookup fs "publishedAt") (vStr (isoString env.nowMs)),
      source := jsOr (objLookup fs "source") (vStr "Newszoid"),
      category := jsOr (objLookup fs "category") (vStr "general"),
      aiSummary := vNull } := by
  by_cases hu : truthy (objLookup fs "url") = true <;>
    by_cases hd : truthy (objLookup fs "description") = true
  · simp only [defaultBody, getField, exceptOkBind, exceptPureEq, hu, hd, if_true]
  · simp only [Bool.not_eq_true] at hd
    simp only [defaultBody, getField, exceptOkBind, exceptPureEq, hu, hd,
      if_true, Bool.false_eq_true, if_false]
  · simp only [Bool.not_eq_true] at hu
    simp only [defaultBody, getField, exceptOkBind, exceptPureEq, hu, hd,
      if_true, Bool.false_eq_true, if_false]
  · simp only [Bool.not_eq_true] at hu hd
    simp only [defaultBody, getField, exceptOkBind, exceptPureEq, hu, hd,
      Bool.false_eq_true, if_false]

theorem gnewsBody_env_free (fs : List (String × JsVal)) (env1 env2 : Env)
    (hurl : truthy (objLookup fs "url") = true)
    (hpub : truthy (objLookup fs "publishedAt") = true) :
    gnewsBody (vObj fs) env1 = gnewsBody (vObj fs) env2 := by
  simp only [gnewsBody_obj, jsOr_truthy _ _ hurl, jsOr_truthy _ _ hpub]

theorem defaultBody_env_free (fs : List (String × JsVal)) (env1 env2 : Env)
    (hid : truthy (objLookup fs "url") = true ∨ truthy (objLookup fs "id") = true)
    (hpub : truthy (objLookup fs "publishedAt") = true) :
    defaultBody (vObj fs) env1 = defaultBody (vObj fs) env2 := by
  rcases hid with hu | hi
  · simp only [defaultBody_obj, jsOr_truthy _ _ hpub, hu, if_true]
  · simp only [defaultBody_obj, jsOr_truthy _ _ hpub, jsOr_truthy _ _ hi]

theorem guardianBody_env_free (fs : List (String × JsVal)) (env1 env2 : Env)
    (hid : truthy (objLookup fs "id") = true)
    (hdate : truthy (objLookup fs "webPublicationDate") = true) :
    guardianBody (vObj fs) env1 = guardianBody (vObj fs) env2 := by
  by_cases ht : truthy (jsFieldOpt (objLookup fs "fields") "trailText") = true
  · simp only [guardianBody, getField, getFieldOpt_eq, exceptOkBind, exceptPureEq,
      ht, if_true, jsOr_truthy _ _ hid, jsOr_truthy _ _ hdate]
  · simp only [Bool.not_eq_true] at ht
    cases hsub : jsSubstringOpt (jsFieldOpt (objLookup fs "fields") "bodyText") 200 with
    | error e =>
      simp only [guardianBody, getField, getFieldOpt_eq, exceptOkBind,
        exceptPureEq, ht, Bool.false_eq_true, if_false, hsub, exceptErrBind]
    | ok sub =>
      simp only [guardianBody, getField, getFieldOpt_eq, exceptOkBind,
        exceptPureEq, ht, Bool.false_eq_true, if_false, hsub,
        jsOr_truthy _ _ hid, jsOr_truthy _ _ hdate]

theorem normalizeBody_gnews (raw : JsVal) (env : Env) :
    normalizeBody "gnews" raw env = gnewsBody raw env := rfl

theorem normalizeBody_guardian (raw : JsVal) (env : Env) :
    normalizeBody "guardian" raw env = guardianBody raw env := rfl

theorem normalizeBody_other (src : String) (h1 : src ≠ "gnews")
    (h2 : src ≠ "guardian") (raw : JsVal) (env : Env) :
    normalizeBody src raw env = defaultBody raw env := by
  rw [normalizeBody, if_neg h1, if_neg h2]

theorem normalizeBody_null (src : String) (env : Env) :
    normalizeBody src vNull env = .error () := by
  rw [normalizeBody]
  split_ifs <;> rfl

theorem normalizeBody_undef (src : String) (env : Env) :
    normalizeBody src vUndef env = .error () := by
  rw [normalizeBody]
  split_ifs <;> rfl

/-- C6 (amended): `normalizeArticle` is deterministic on items that supply
the fields backing its id and timestamp (url+publishedAt for gnews and the
default adapter — the default also accepting an `id` in place of `url` —
and id+webPublicationDate for guardian); for such items, two calls under
different `Date.now()` / `Math.random()` draws yield the same output.
Items missing those fields receive generated, draw-dependent values. -/
theorem normalizeArticle_deterministic (src : String) (raw : JsVal)
    (env1 env2 : Env) (h : envFreeInput src raw = true) :
    normalizeArticle src raw env1 = normalizeArticle src raw env2 := by
  cases raw with
  | vNull =>
    simp [normalizeArticle, normalizeArticleEx, jsTryNull, normalizeBody_null]
  | vUndef =>
    simp [normalizeArticle, normalizeArticleEx, jsTryNull, normalizeBody_undef]
  | vBool b => simp [envFreeInput] at h
  | vNum n => simp [envFreeInput] at h
  | vStr s => simp [envFreeInput] at h
  | vArr elems => simp [envFreeInput] at h
  | vObj fs =>
    rw [envFreeInput] at h
    by_cases hs1 : src = "gnews"
    · rw [if_pos hs1] at h
      obtain ⟨hurl, hpub⟩ := Bool.and_eq_true_iff.mp h
      subst hs1
      simp only [normalizeArticle, normalizeArticleEx, normalizeBody_gnews,
        gnewsBody_env_free fs env1 env2 hurl hpub]
    · rw [if_neg hs1] at h
      by_cases hs2 : src = "guardian"
      · rw [if_pos hs2] at h
        obtain ⟨hid, hdate⟩ := Bool.and_eq_true_iff.mp h
        subst hs2
        simp only [normalizeArticle, normalizeArticleEx, normalizeBody_guardian,
          guardianBody_env_free fs env1 env2 hid hdate]
      · rw [if_neg hs2] at h
        obtain ⟨hid, hpub⟩ := Bool.and_eq_true_iff.mp h
        rcases Bool.or_eq_true_iff.mp hid with hu | hi
        · simp only [normalizeArticle, normalizeArticleEx,
            normalizeBody_other src hs1 hs2,
            defaultBody_env_free fs env1 env2 (Or.inl hu) hpub]
        · simp only [normalizeArticle, normalizeArticleEx,
            normalizeBody_other src hs1 hs2,
            defaultBody_env_free fs env1 env2 (Or.inr hi) hpub]

/-- Witness for C6 at a gnews item that carries both url and publishedAt. -/
theorem normalizeArticle_deterministic_witness :
    envFreeInput "gnews"
        (vObj [("url", vStr "https://a.com/x"), ("publishedAt", vStr "5")]) = true
    ∧ normalizeArticle "gnews"
        (vObj [("url", vStr "https://a.com/x"), ("publishedAt", vStr "5")]) ⟨0, "a"⟩
      = normalizeArticle "gnews"
        (vObj [("url", vStr "https://a.com/x"), ("publishedAt", vStr "5")]) ⟨1, "b"⟩ :=
  ⟨rfl,
   normalizeArticle_deterministic "gnews"
     (vObj [("url", vStr "https://a.com/x"), ("publishedAt", vStr "5")])
     ⟨0, "a"⟩ ⟨1, "b"⟩ rfl⟩

/-- C6 is false as stated: a gnews item lacking a url normalizes to
different outputs under two different clock/RNG draws — the generated id
embeds `Date.now()` and `Math.random()`. -/
theorem normalizeArticle_nondeterministic_counterexample :
    normalizeArticle "gnews" (vObj [("title", vStr "A")]) ⟨0, "a"⟩
      ≠ normalizeArticle "gnews" (vObj [("title", vStr "A")]) ⟨1, "b"⟩ := by
  intro h
  have h2 : (normalizeArticle "gnews" (vObj [("title", vStr "A")]) ⟨0, "a"⟩).map
        (fun a => a.id)
      = (normalizeArticle "gnews" (vObj [("title", vStr "A")]) ⟨1, "b"⟩).map
        (fun a => a.id) := by rw [h]
  have h3 : (some (vStr "gnews_0_a") : Option JsVal) = some (vStr "gnews_1_b") := h2
  injection h3 with h4
  rw [JsVal.vStr.injEq] at h4
  exact absurd h4 (by decide)

theorem jsBatchAux_append_skip (src : String) (envs : Nat → Env) :
    ∀ (xs : List JsVal) (i : Nat) (bad : JsVal) (ys : List JsVal),
      normalizeArticle src bad (envs (i + xs.length)) = none →
      jsBatchAux src envs i (xs ++ bad :: ys)
        = jsBatchAux src envs i xs ++ jsBatchAux src envs (i + xs.length + 1) ys := by
  intro xs
  induction xs with
  | nil =>
    intro i bad ys hbad
    simp only [List.length_nil, Nat.add_zero] at hbad
    simp [jsBatchAux, hbad]
  | cons a t ih =>
    intro i bad ys hbad
    have hbad' : normalizeArticle src bad (envs (i + 1 + t.length)) = none := by
      have e : i + (a :: t).length = i + 1 + t.length := by
        simp only [List.length_cons]
        omega
      rwa [e] at hbad
    have e2 : i + 1 + t.length + 1 = i + (a :: t).length + 1 := by
      simp only [List.length_cons]
      omega
    cases h : normalizeArticle src a (envs i) with
    | some art =>
      simp only [List.cons_append, jsBatchAux, h, List.append_eq]
      rw [ih (i + 1) bad ys hbad', e2]
    | none =>
      simp only [List.cons_append, jsBatchAux, h, List.append_eq]
      rw [ih (i + 1) bad ys hbad', e2]

/-- C9: `normalizeArticle` never propagates an exception past its boundary —
for every provider identifier, raw item (including `null`/`undefined` and
malformed shapes) and clock/RNG draw, the call returns normally with either
an article or the unusable signal (`null`); consequently a bad item in a
batch is simply skipped, leaving the surrounding items' processing intact. -/
theorem normalizeArticle_never_throws :
    (∀ (src : String) (raw : JsVal) (env : Env),
        ∃ r, normalizeArticleEx src raw env = .ok r)
    ∧ (∀ (src : String) (envs : Nat → Env) (xs ys : List JsVal) (bad : JsVal),
        normalizeArticle src bad (envs xs.length) = none →
        jsBatch src envs (xs ++ bad :: ys)
          = jsBatch src envs xs ++ jsBatchAux src envs (xs.length + 1) ys) := by
  constructor
  · intro src raw env
    cases h : normalizeBody src raw env with
    | ok a => exact ⟨some a, by rw [normalizeArticleEx, h]; rfl⟩
    | error e => exact ⟨none, by rw [normalizeArticleEx, h]; rfl⟩
  · intro src envs xs ys bad hbad
    have := jsBatchAux_append_skip src envs xs 0 bad ys (by simpa using hbad)
    simpa [jsBatch] using this

/-- Witness for C9: a `null` item inside a gnews batch is skipped while the
items around it are still normalized. -/
theorem normalizeArticle_never_throws_witness :
    normalizeArticle "gnews" vNull
        ((fun _ => (⟨0, "r"⟩ : Env)) ([vObj [("url", vStr "https://a.com")]]
          : List JsVal).length) = none
    ∧ jsBatch "gnews" (fun _ => ⟨0, "r"⟩)
        ([vObj [("url", vStr "https://a.com")]] ++ vNull
          :: [vObj [("url", vStr "https://b.com")]])
      = jsBatch "gnews" (fun _ => ⟨0, "r"⟩) [vObj [("url", vStr "https://a.com")]]
        ++ jsBatchAux "gnews" (fun _ => ⟨0, "r"⟩)
          (([vObj [("url", vStr "https://a.com")]] : List JsVal).length + 1)
          [vObj [("url", vStr "https://b.com")]] :=
  ⟨rfl,
   normalizeArticle_never_throws.2 "gnews" (fun _ => ⟨0, "r"⟩)
     [vObj [("url", vStr "https://a.com")]]
     [vObj [("url", vStr "https://b.com")]] vNull rfl⟩

theorem cacheGet_length_le (st : CacheState) (now : Nat) (key : String)
    (v : List Article) (h : cacheGet st now key = some v)
    (hb : ∀ e ∈ st, (e.2.1).length ≤ 50) : v.length ≤ 50 := by
  rw [cacheGet] at h
  cases hf : st.find? (fun e => e.1 == key) with
  | none => rw [hf] at h; cases h
  | some e =>
    rw [hf] at h
    replace h : (if now ≤ e.2.2 then some e.2.1 else none) = some v := h
    by_cases ht : now ≤ e.2.2
    · rw [if_pos ht] at h
      cases h
      exact hb e (List.mem_of_find?_eq_some hf)
    · rw [if_neg ht] at h; cases h

theorem clamped_pageSize_toNat_le (x : Int) : (min 50 (max 1 x)).toNat ≤ 50 :=
  le_trans (Int.toNat_le_toNat (min_le_left _ _)) (by decide)

theorem newsDataLookup_toData_le50 (t : Nat) (c : String) :
    (newsDataLookup t c).toData.length ≤ 50 :=
  le_trans (newsDataLookup_toData_le t c) (by omega)

theorem sorted_take_length_le (l : List Article) (pageSize : Int) :
    ((sortByDateDesc l).take pageSize.toNat).length ≤ pageSize.toNat :=
  le_trans (le_of_eq (List.length_take _ _)) (min_le_left _ _)

theorem getNews_data_length_le (w : World) (cache : CacheState) (now : Nat)
    (fault : Bool) (categoryQ : Option String) (pageQ pageSizeQ : Option Int)
    (hcache : ∀ e ∈ cache, (e.2.1).length ≤ 50) :
    (getNews w cache now fault categoryQ pageQ pageSizeQ).resp.data.length ≤ 50 := by
  cases fault with
  | true => exact newsDataLookup_toData_le50 _ _
  | false =>
    cases hc : cacheGet cache now
        (newsCacheKey (jsTrim (jsLower (categoryQ.getD "general")))
          (max 1 (pageQ.getD 1)) (min 50 (max 1 (pageSizeQ.getD 10)))) with
    | some v =>
      have hv := cacheGet_length_le _ _ _ _ hc hcache
      simp only [getNews, Bool.false_eq_true, if_false, hc]
      exact hv
    | none =>
      by_cases hr : (buildAPIRequests w.gnewsKey w.guardianKey
          (newsSearchQuery (jsTrim (jsLower (categoryQ.getD "general"))))
          (max 1 (pageQ.getD 1)) (min 50 (max 1 (pageSizeQ.getD 10)))).length = 0
      · simp only [getNews, Bool.false_eq_true, if_false, hc, if_pos hr]
        exact newsDataLookup_toData_le50 _ _
      · cases hsub : newsSubstituted w (jsTrim (jsLower (categoryQ.getD "general")))
            (max 1 (pageQ.getD 1)) (min 50 (max 1 (pageSizeQ.getD 10))) with
        | list arts =>
          simp only [getNews, Bool.false_eq_true, if_false, hc, if_neg hr, hsub]
          exact le_trans (sorted_take_length_le _ _) (clamped_pageSize_toNat_le _)
        | protoConstructor =>
          simp only [getNews, Bool.false_eq_true, if_false, hc, if_neg hr, hsub]
          exact newsDataLookup_toData_le50 _ _
        | protoProto =>
          simp only [getNews, Bool.false_eq_true, if_false, hc, if_neg hr, hsub]
          exact newsDataLookup_toData_le50 _ _

/-- C7: the news endpoint's result never carries more than 50 articles (the
controller clamps `pageSize` to [1, 50] and fallback lists are shorter);
`pageSize = 500` is rejected by route validation with a 400 carrying no
articles, and `pageSize ≤ 0` is likewise rejected as invalid caller input
with no upstream request issued. -/
theorem newsEndpoint_pageSize_bounds (w : World) (cache : CacheState)
    (now : Nat) (fault : Bool) (categoryQ : Option String)
    (pageQ pageSizeQ : Option Int)
    (hcache : ∀ e ∈ cache, (e.2.1).length ≤ 50) :
    (newsEndpoint w cache now fault categoryQ pageQ pageSizeQ).resp.data.length ≤ 50
    ∧ (pageSizeQ = some 500 →
        (newsEndpoint w cache now fault categoryQ pageQ pageSizeQ).resp.status = 400
        ∧ (newsEndpoint w cache now fault categoryQ pageQ pageSizeQ).resp.ok = false
        ∧ (newsEndpoint w cache now fault categoryQ pageQ pageSizeQ).resp.data = []
        ∧ (newsEndpoint w cache now fault categoryQ pageQ pageSizeQ).fetchedReqs = [])
    ∧ (∀ s : Int, pageSizeQ = some s → s ≤ 0 →
        (newsEndpoint w cache now fault categoryQ pageQ pageSizeQ).resp.status = 400
        ∧ (newsEndpoint w cache now fault categoryQ pageQ pageSizeQ).resp.ok = false
        ∧ (newsEndpoint w cache now fault categoryQ pageQ pageSizeQ).fetchedReqs
            = []) := by
  have hinv : ∀ s : Int, pageSizeQ = some s → ¬(1 ≤ s ∧ s ≤ 50) →
      validNewsQuery categoryQ pageQ pageSizeQ = false := by
    intro s hs hout
    subst hs
    rcases Decidable.not_and_iff_or_not.mp hout with h | h <;>
      simp [validNewsQuery, decide_eq_false h]
  refine ⟨?_, ?_, ?_⟩
  · rw [newsEndpoint]
    split
    · exact getNews_data_length_le _ _ _ _ _ _ _ hcache
    · simp
  · intro h500
    have hv := hinv 500 h500 (by omega)
    rw [newsEndpoint, if_neg (by simp [hv])]
    exact ⟨rfl, rfl, rfl, rfl⟩
  · intro s hs hneg
    have hv := hinv s hs (by omega)
    rw [newsEndpoint, if_neg (by simp [hv])]
    exact ⟨rfl, rfl, rfl⟩

/-- Witness for C7 at a concrete world: empty cache, `pageSize = 500`. -/
theorem newsEndpoint_pageSize_bounds_witness :
    (∀ e ∈ ([] : CacheState), (e.2.1).length ≤ 50)
    ∧ (newsEndpoint
        ⟨none, none, false, fun _ => none, fun _ => .error (), fun _ _ => ⟨0, ""⟩, 7, 300000⟩
        [] 0 false (some "technology") none (some 500)).resp.data.length ≤ 50
    ∧ (newsEndpoint
        ⟨none, none, false, fun _ => none, fun _ => .error (), fun _ _ => ⟨0, ""⟩, 7, 300000⟩
        [] 0 false (some "technology") none (some 500)).resp.status = 400 :=
  ⟨by simp,
   (newsEndpoint_pageSize_bounds
     ⟨none, none, false, fun _ => none, fun _ => .error (), fun _ _ => ⟨0, ""⟩, 7, 300000⟩
     [] 0 false (some "technology") none (some 500) (by simp)).1,
   ((newsEndpoint_pageSize_bounds
     ⟨none, none, false, fun _ => none, fun _ => .error (), fun _ _ => ⟨0, ""⟩, 7, 300000⟩
     [] 0 false (some "technology") none (some 500) (by simp)).2.1 rfl).1⟩

theorem clamped_pageSize_toNat_pos (x : Int) : 1 ≤ (min 50 (max 1 x)).toNat := by
  have h1 : (1 : Int) ≤ min 50 (max 1 x) := le_min (by norm_num) (le_max_left 1 x)
  omega

theorem buildAPIRequests_gnews_only (gk : String) (h1 : gk ≠ "")
    (h2 : gk ≠ "your_gnews_api_key_here") (q : String) (p s : Int) :
    buildAPIRequests (some gk) none q p s = [⟨"gnews", gnewsUrl gk q p s⟩] := by
  simp [buildAPIRequests, bne_iff_ne, h1, h2]

theorem buildAPIRequests_both (gk guk : String) (h1 : gk ≠ "")
    (h2 : gk ≠ "your_gnews_api_key_here") (h3 : guk ≠ "")
    (h4 : guk ≠ "your_guardian_api_key_here") (q : String) (p s : Int) :
    buildAPIRequests (some gk) (some guk) q p s
      = [⟨"gnews", gnewsUrl gk q p s⟩, ⟨"guardian", guardianUrl guk q p s⟩] := by
  simp [buildAPIRequests, bne_iff_ne, h1, h2, h3, h4]

theorem processRequest_error (provider : String) (envs : Nat → Env) :
    processRequest provider (.error ()) envs = [] := rfl

theorem processRequest_gnews_arr (fetched : Except Unit JsVal)
    (items : List JsVal) (envs : Nat → Env)
    (hf : fetched = .ok (vObj [("articles", vArr items)])) :
    processRequest "gnews" fetched envs = jsBatch "gnews" envs items := by
  subst hf
  rfl

theorem processRequest_guardian_arr (fetched : Except Unit JsVal)
    (items : List JsVal) (envs : Nat → Env)
    (hf : fetched = .ok (vObj [("response", vObj [("results", vArr items)])])) :
    processRequest "guardian" fetched envs = jsBatch "guardian" envs items := by
  subst hf
  rfl

theorem fetchAll_cons (w : World) (i : Nat) (r : ProviderReq)
    (t : List ProviderReq) :
    fetchAll w i (r :: t)
      = processRequest r.provider (w.fetchResult r) (w.envAt i)
        ++ fetchAll w (i + 1) t := rfl

theorem cacheGet_cacheSet_same (st : CacheState) (now : Nat) (key : String)
    (v : List Article) (ttl : Nat) (now2 : Nat) (h : now2 ≤ now + ttl) :
    cacheGet (cacheSet st now key v ttl) now2 key = some v := by
  rw [cacheSet, cacheGet, List.find?_cons_of_pos _ (by simp)]
  simp [h]

theorem newsSubstituted_of_ne (w : World) (category : String)
    (page pageSize : Int)
    (hne : (dedupByUrl (fetchAll w 0 (buildAPIRequests w.gnewsKey w.guardianKey
      (newsSearchQuery category) page pageSize))).length ≠ 0) :
    newsSubstituted w category page pageSize
      = .list (dedupByUrl (fetchAll w 0 (buildAPIRequests w.gnewsKey
        w.guardianKey (newsSearchQuery category) page pageSize))) := by
  simp only [newsSubstituted, if_neg hne]

theorem enrichArticles_disabled (w : World) (l : List Article)
    (h : w.geminiEnabled = false) : enrichArticles w l = l := by
  simp [enrichArticles, h]

/-- Reduction of `getNews` on the live-aggregation path: cache miss, at
least one configured provider, and a fallback substitution that yielded an
article list (the prototype-member cases instead throw into the catch). -/
theorem getNews_fetch_branch (w : World) (cache : CacheState) (now : Nat)
    (categoryQ : Option String) (pageQ pageSizeQ : Option Int)
    (arts : List Article)
    (hmiss : cacheGet cache now
      (newsCacheKey (jsTrim (jsLower (categoryQ.getD "general")))
        (max 1 (pageQ.getD 1)) (min 50 (max 1 (pageSizeQ.getD 10)))) = none)
    (hreq : (buildAPIRequests w.gnewsKey w.guardianKey
      (newsSearchQuery (jsTrim (jsLower (categoryQ.getD "general"))))
      (max 1 (pageQ.getD 1)) (min 50 (max 1 (pageSizeQ.getD 10)))).length ≠ 0)
    (harts : newsSubstituted w (jsTrim (jsLower (categoryQ.getD "general")))
      (max 1 (pageQ.getD 1)) (min 50 (max 1 (pageSizeQ.getD 10)))
      = .list arts) :
    getNews w cache now false categoryQ pageQ pageSizeQ
      = { resp := {
              ok := true,
              fromCache := some false,
              aiEnabled := some w.geminiEnabled,
              category := some (jsTrim (jsLower (categoryQ.getD "general"))),
              total := some (Int.ofNat ((sortByDateDesc arts).take
                (min 50 (max 1 (pageSizeQ.getD 10))).toNat).length),
              page := some (max 1 (pageQ.getD 1)),
              pageSize := some (min 50 (max 1 (pageSizeQ.getD 10))),
              data := (sortByDateDesc arts).take
                (min 50 (max 1 (pageSizeQ.getD 10))).toNat },
          cacheAfter := cacheSet cache now
            (newsCacheKey (jsTrim (jsLower (categoryQ.getD "general")))
              (max 1 (pageQ.getD 1)) (min 50 (max 1 (pageSizeQ.getD 10))))
            (enrichArticles w ((sortByDateDesc arts).take
              (min 50 (max 1 (pageSizeQ.getD 10))).toNat)) w.ttlMs,
          fetchedReqs := buildAPIRequests w.gnewsKey w.guardianKey
            (newsSearchQuery (jsTrim (jsLower (categoryQ.getD "general"))))
            (max 1 (pageQ.getD 1)) (min 50 (max 1 (pageSizeQ.getD 10))) } := by
  simp only [getNews, Bool.false_eq_true, if_false, hmiss, if_neg hreq, harts]

/-- C5 (amended): when at least one provider is configured, the aggregation
produced at least one article after dedup (the category-name `constructor`/
`__proto__` empty-merge cases instead throw at `articles.sort` and cache
nothing), and no Gemini model is configured (an enabled model asynchronously
overwrites the cached articles' `aiSummary`, breaking byte-identity), a
cache-missing call stores its article list and any second call with
identical parameters within the entry's TTL returns the identical list with
`fromCache = true`.  With zero providers configured nothing is ever cached,
so repeated calls return the identical fallback list but keep
`fromCache = false` — see the counterexample. -/
theorem getNews_cache_idempotent (w : World) (cache : CacheState)
    (now1 now2 : Nat) (categoryQ : Option String) (pageQ pageSizeQ : Option Int)
    (hmiss : cacheGet cache now1
      (newsCacheKey (jsTrim (jsLower (categoryQ.getD "general")))
        (max 1 (pageQ.getD 1)) (min 50 (max 1 (pageSizeQ.getD 10)))) = none)
    (hreq : (buildAPIRequests w.gnewsKey w.guardianKey
      (newsSearchQuery (jsTrim (jsLower (categoryQ.getD "general"))))
      (max 1 (pageQ.getD 1)) (min 50 (max 1 (pageSizeQ.getD 10)))).length ≠ 0)
    (hne : (dedupByUrl (fetchAll w 0 (buildAPIRequests w.gnewsKey w.guardianKey
      (newsSearchQuery (jsTrim (jsLower (categoryQ.getD "general"))))
      (max 1 (pageQ.getD 1)) (min 50 (max 1 (pageSizeQ.getD 10)))))).length ≠ 0)
    (hgem : w.geminiEnabled = false)
    (httl : now2 ≤ now1 + w.ttlMs) :
    (getNews w (getNews w cache now1 false categoryQ pageQ pageSizeQ).cacheAfter
        now2 false categoryQ pageQ pageSizeQ).resp.data
      = (getNews w cache now1 false categoryQ pageQ pageSizeQ).resp.data
    ∧ (getNews w (getNews w cache now1 false categoryQ pageQ pageSizeQ).cacheAfter
        now2 false categoryQ pageQ pageSizeQ).resp.fromCache = some true := by
  rw [getNews_fetch_branch w cache now1 categoryQ pageQ pageSizeQ _ hmiss hreq
    (newsSubstituted_of_ne w _ _ _ hne)]
  rw [enrichArticles_disabled w _ hgem]
  have hhit := cacheGet_cacheSet_same cache now1
    (newsCacheKey (jsTrim (jsLower (categoryQ.getD "general")))
      (max 1 (pageQ.getD 1)) (min 50 (max 1 (pageSizeQ.getD 10))))
    ((sortByDateDesc (dedupByUrl (fetchAll w 0 (buildAPIRequests w.gnewsKey
      w.guardianKey (newsSearchQuery (jsTrim (jsLower (categoryQ.getD "general"))))
      (max 1 (pageQ.getD 1)) (min 50 (max 1 (pageSizeQ.getD 10))))))).take
      (min 50 (max 1 (pageSizeQ.getD 10))).toNat)
    w.ttlMs now2 httl
  constructor <;>
    simp only [getNews, Bool.false_eq_true, if_false, hhit]

/-- Witness for C5 (amended): a concrete one-provider world (Gemini off),
first call on a cold cache at t=0, second call at t=1 (within the 300 s
TTL). -/
theorem getNews_cache_idempotent_witness :
    cacheGet [] 0 (newsCacheKey "technology" 1 10) = none
    ∧ cachingWorld.geminiEnabled = false
    ∧ (1 : Nat) ≤ 0 + cachingWorld.ttlMs
    ∧ (getNews cachingWorld
        (getNews cachingWorld [] 0 false (some "technology") none none).cacheAfter
        1 false (some "technology") none none).resp.data
      = (getNews cachingWorld [] 0 false (some "technology") none none).resp.data
    ∧ (getNews cachingWorld
        (getNews cachingWorld [] 0 false (some "technology") none none).cacheAfter
        1 false (some "technology") none none).resp.fromCache = some true :=
  ⟨rfl, rfl, by decide,
   (getNews_cache_idempotent cachingWorld [] 0 1 (some "technology") none none
     rfl (by decide) (by decide) rfl (by decide)).1,
   (getNews_cache_idempotent cachingWorld [] 0 1 (some "technology") none none
     rfl (by decide) (by decide) rfl (by decide)).2⟩

/-- C5 is false as stated: with no providers configured the fallback
short-circuit never writes to the cache, so a second identical call within
the TTL window returns the identical list but reports `fromCache = false`,
not `true`. -/
theorem getNews_cache_counterexample :
    (getNews noProviderWorld
        (getNews noProviderWorld [] 0 false (some "technology") none none).cacheAfter
        1 false (some "technology") none none).resp.data
      = (getNews noProviderWorld [] 0 false (some "technology") none none).resp.data
    ∧ (getNews noProviderWorld
        (getNews noProviderWorld [] 0 false (some "technology") none none).cacheAfter
        1 false (some "technology") none none).resp.fromCache = some false :=
  ⟨rfl, rfl⟩

/-- C3: with both providers configured, a cache miss, the gnews fetch
failing (timeout after retries) and guardian returning exactly three usable
results with pairwise-distinct urls, the response data is exactly those
three normalized articles (up to the date sort), with no `error` field, a
falsy `isFallback`, and `ok = true`.  The final conjunct states failure
isolation in general: a failed fetch contributes zero articles, never an
exception. -/
theorem getNews_partial_failure (w : World) (cache : CacheState) (now : Nat)
    (categoryQ : Option String) (pageQ pageSizeQ : Option Int)
    (gk guk : String) (i1 i2 i3 : JsVal) (a1 a2 a3 : Article)
    (hgk : w.gnewsKey = some gk) (hg1 : gk ≠ "")
    (hg2 : gk ≠ "your_gnews_api_key_here")
    (hguk : w.guardianKey = some guk) (hk1 : guk ≠ "")
    (hk2 : guk ≠ "your_guardian_api_key_here")
    (hmiss : cacheGet cache now
      (newsCacheKey (jsTrim (jsLower (categoryQ.getD "general")))
        (max 1 (pageQ.getD 1)) (min 50 (max 1 (pageSizeQ.getD 10)))) = none)
    (hfg : ∀ r : ProviderReq, r.provider = "gnews" → w.fetchResult r = .error ())
    (hfu : ∀ r : ProviderReq, r.provider = "guardian" →
      w.fetchResult r = .ok (vObj [("response", vObj [("results", vArr [i1, i2, i3])])]))
    (hn1 : normalizeArticle "guardian" i1 (w.envAt 1 0) = some a1)
    (hn2 : normalizeArticle "guardian" i2 (w.envAt 1 1) = some a2)
    (hn3 : normalizeArticle "guardian" i3 (w.envAt 1 2) = some a3)
    (hd12 : primEq a1.url a2.url = false)
    (hd13 : primEq a1.url a3.url = false)
    (hd23 : primEq a2.url a3.url = false)
    (hsz : 3 ≤ min 50 (max 1 (pageSizeQ.getD 10))) :
    List.Perm
      (getNews w cache now false categoryQ pageQ pageSizeQ).resp.data [a1, a2, a3]
    ∧ (getNews w cache now false categoryQ pageQ pageSizeQ).resp.error = none
    ∧ (getNews w cache now false categoryQ pageQ pageSizeQ).resp.isFallback.getD
        false = false
    ∧ (getNews w cache now false categoryQ pageQ pageSizeQ).resp.ok = true
    ∧ (∀ (provider : String) (envs : Nat → Env),
        processRequest provider (.error ()) envs = []) := by
  have hreqs : buildAPIRequests w.gnewsKey w.guardianKey
      (newsSearchQuery (jsTrim (jsLower (categoryQ.getD "general"))))
      (max 1 (pageQ.getD 1)) (min 50 (max 1 (pageSizeQ.getD 10)))
      = [⟨"gnews", gnewsUrl gk
            (newsSearchQuery (jsTrim (jsLower (categoryQ.getD "general"))))
            (max 1 (pageQ.getD 1)) (min 50 (max 1 (pageSizeQ.getD 10)))⟩,
         ⟨"guardian", guardianUrl guk
            (newsSearchQuery (jsTrim (jsLower (categoryQ.getD "general"))))
            (max 1 (pageQ.getD 1)) (min 50 (max 1 (pageSizeQ.getD 10)))⟩] := by
    rw [hgk, hguk]
    exact buildAPIRequests_both gk guk hg1 hg2 hk1 hk2 _ _ _
  have hreqlen : (buildAPIRequests w.gnewsKey w.guardianKey
      (newsSearchQuery (jsTrim (jsLower (categoryQ.getD "general"))))
      (max 1 (pageQ.getD 1)) (min 50 (max 1 (pageSizeQ.getD 10)))).length ≠ 0 := by
    rw [hreqs]
    simp
  have hmerged : fetchAll w 0 (buildAPIRequests w.gnewsKey w.guardianKey
      (newsSearchQuery (jsTrim (jsLower (categoryQ.getD "general"))))
      (max 1 (pageQ.getD 1)) (min 50 (max 1 (pageSizeQ.getD 10))))
      = [a1, a2, a3] := by
    rw [hreqs, fetchAll_cons, fetchAll_cons]
    rw [hfg _ rfl, hfu _ rfl]
    rw [processRequest_error, processRequest_guardian_arr _ [i1, i2, i3] _ rfl]
    simp [jsBatch, jsBatchAux, hn1, hn2, hn3, fetchAll]
  have hdedup : dedupByUrl [a1, a2, a3] = [a1, a2, a3] := by
    simp [dedupByUrl, dedupAux, hd12, hd13, hd23]
  have hsubst : newsSubstituted w (jsTrim (jsLower (categoryQ.getD "general")))
      (max 1 (pageQ.getD 1)) (min 50 (max 1 (pageSizeQ.getD 10)))
      = .list [a1, a2, a3] := by
    simp only [newsSubstituted, hmerged, hdedup]
    rw [if_neg (by simp)]
  have heq := getNews_fetch_branch w cache now categoryQ pageQ pageSizeQ _
    hmiss hreqlen hsubst
  have hdata : (getNews w cache now false categoryQ pageQ pageSizeQ).resp.data
      = (sortByDateDesc [a1, a2, a3]).take
        (min 50 (max 1 (pageSizeQ.getD 10))).toNat := by
    rw [heq]
  refine ⟨?_, ?_, ?_, ?_, fun _ _ => rfl⟩
  · rw [hdata]
    have hperm := sortByDateDesc_perm [a1, a2, a3]
    have hlen : (sortByDateDesc [a1, a2, a3]).length ≤
        (min 50 (max 1 (pageSizeQ.getD 10))).toNat := by
      rw [hperm.length_eq]
      have := Int.toNat_le_toNat hsz
      simpa using this
    rw [List.take_of_length_le hlen]
    exact hperm
  · rw [heq]
  · rw [heq]
    rfl
  · rw [heq]

/-- Witness for C3 at the concrete partial-failure scenario: gnews times
out, guardian returns three usable articles. -/
theorem getNews_partial_failure_witness :
    (∀ r : ProviderReq, r.provider = "gnews" →
        partialFailureWorld.fetchResult r = .error ())
    ∧ (3 : Int) ≤ min 50 (max 1 ((none : Option Int).getD 10))
    ∧ List.Perm
        (getNews partialFailureWorld [] 0 false (some "technology") none none).resp.data
        [{ id := vStr "g1", title := vStr "Untitled", snippet := vStr "",
           url := vStr "https://g.com/1",
           image := vStr "https://via.placeholder.com/600x400?text=News",
           publishedAt := vStr "3", source := vStr "The Guardian",
           category := vStr "general", aiSummary := vNull },
         { id := vStr "g2", title := vStr "Untitled", snippet := vStr "",
           url := vStr "https://g.com/2",
           image := vStr "https://via.placeholder.com/600x400?text=News",
           publishedAt := vStr "9", source := vStr "The Guardian",
           category := vStr "general", aiSummary := vNull },
         { id := vStr "g3", title := vStr "Untitled", snippet := vStr "",
           url := vStr "https://g.com/3",
           image := vStr "https://via.placeholder.com/600x400?text=News",
           publishedAt := vStr "6", source := vStr "The Guardian",
           category := vStr "general", aiSummary := vNull }] :=
  ⟨fun r hr => by simp [partialFailureWorld, hr],
   by decide,
   (getNews_partial_failure partialFailureWorld [] 0 (some "technology") none none
     "k1" "k2"
     (vObj [("id", vStr "g1"), ("webUrl", vStr "https://g.com/1"),
            ("webPublicationDate", vStr "3")])
     (vObj [("id", vStr "g2"), ("webUrl", vStr "https://g.com/2"),
            ("webPublicationDate", vStr "9")])
     (vObj [("id", vStr "g3"), ("webUrl", vStr "https://g.com/3"),
            ("webPublicationDate", vStr "6")])
     { id := vStr "g1", title := vStr "Untitled", snippet := vStr "",
       url := vStr "https://g.com/1",
       image := vStr "https://via.placeholder.com/600x400?text=News",
       publishedAt := vStr "3", source := vStr "The Guardian",
       category := vStr "general", aiSummary := vNull }
     { id := vStr "g2", title := vStr "Untitled", snippet := vStr "",
       url := vStr "https://g.com/2",
       image := vStr "https://via.placeholder.com/600x400?text=News",
       publishedAt := vStr "9", source := vStr "The Guardian",
       category := vStr "general", aiSummary := vNull }
     { id := vStr "g3", title := vStr "Untitled", snippet := vStr "",
       url := vStr "https://g.com/3",
       image := vStr "https://via.placeholder.com/600x400?text=News",
       publishedAt := vStr "6", source := vStr "The Guardian",
       category := vStr "general", aiSummary := vNull }
     rfl (by decide) (by decide) rfl (by decide) (by decide) rfl
     (fun r hr => by simp [partialFailureWorld, hr])
     (fun r hr => by simp [partialFailureWorld, hr, guardianPayloadThree])
     rfl rfl rfl rfl rfl rfl (by decide)).1⟩

theorem normalizeArticle_gnews_obj (fs : List (String × JsVal)) (env : Env) :
    normalizeArticle "gnews" (vObj fs) env = some {
      id := jsOr (objLookup fs "url")
        (vStr ("gnews_" ++ toString env.nowMs ++ "_" ++ env.rand)),
      title := jsOr (objLookup fs "title") (vStr "Untitled"),
      snippet := if truthy (objLookup fs "description") then objLookup fs "description"
        else jsOr (objLookup fs "content") (vStr ""),
      url := jsOr (objLookup fs "url") (vStr "#"),
      image := jsOr (objLookup fs "image")
        (vStr "https://via.placeholder.com/600x400?text=News"),
      publishedAt := jsOr (objLookup fs "publishedAt") (vStr (isoString env.nowMs)),
      source := jsOr (jsFieldOpt (objLookup fs "source") "name") (vStr "GNews"),
      category := jsOr (objLookup fs "category") (vStr "general"),
      aiSummary := vNull } := by
  simp [normalizeArticle, normalizeArticleEx, normalizeBody_gnews, gnewsBody_obj,
    jsTryNull]

/-- C10: with gnews as the only provider and a payload of two usable items
that both lack a url, both normalize with the `#` sentinel url, so the
url-keyed dedup keeps only the first of them in the result — even though
their generated ids (built from the clock and RNG draws) differ. -/
theorem getNews_sentinel_url_collision (w : World) (cache : CacheState)
    (now : Nat) (categoryQ : Option String) (pageQ pageSizeQ : Option Int)
    (gk : String) (f1 f2 : List (String × JsVal)) (a1 a2 : Article)
    (hgk : w.gnewsKey = some gk) (hg1 : gk ≠ "")
    (hg2 : gk ≠ "your_gnews_api_key_here") (hgu : w.guardianKey = none)
    (hmiss : cacheGet cache now
      (newsCacheKey (jsTrim (jsLower (categoryQ.getD "general")))
        (max 1 (pageQ.getD 1)) (min 50 (max 1 (pageSizeQ.getD 10)))) = none)
    (hfetch : ∀ r : ProviderReq, r.provider = "gnews" →
      w.fetchResult r = .ok (vObj [("articles", vArr [vObj f1, vObj f2])]))
    (hurl1 : truthy (objLookup f1 "url") = false)
    (hurl2 : truthy (objLookup f2 "url") = false)
    (hn1 : normalizeArticle "gnews" (vObj f1) (w.envAt 0 0) = some a1)
    (hn2 : normalizeArticle "gnews" (vObj f2) (w.envAt 0 1) = some a2)
    (hid : ("gnews_" ++ toString (w.envAt 0 0).nowMs ++ "_" ++ (w.envAt 0 0).rand)
      ≠ ("gnews_" ++ toString (w.envAt 0 1).nowMs ++ "_" ++ (w.envAt 0 1).rand)) :
    (getNews w cache now false categoryQ pageQ pageSizeQ).resp.data = [a1]
    ∧ a1.url = vStr "#" ∧ a2.url = vStr "#" ∧ a1.id ≠ a2.id := by
  have ha1 : a1 = {
      id := vStr ("gnews_" ++ toString (w.envAt 0 0).nowMs ++ "_" ++ (w.envAt 0 0).rand),
      title := jsOr (objLookup f1 "title") (vStr "Untitled"),
      snippet := if truthy (objLookup f1 "description") then objLookup f1 "description"
        else jsOr (objLookup f1 "content") (vStr ""),
      url := vStr "#",
      image := jsOr (objLookup f1 "image")
        (vStr "https://via.placeholder.com/600x400?text=News"),
      publishedAt := jsOr (objLookup f1 "publishedAt")
        (vStr (isoString (w.envAt 0 0).nowMs)),
      source := jsOr (jsFieldOpt (objLookup f1 "source") "name") (vStr "GNews"),
      category := jsOr (objLookup f1 "category") (vStr "general"),
      aiSummary := vNull } := by
    have h := normalizeArticle_gnews_obj f1 (w.envAt 0 0)
    rw [hn1, jsOr_falsy _ _ hurl1, jsOr_falsy _ _ hurl1] at h
    exact Option.some.inj h
  have ha2 : a2 = {
      id := vStr ("gnews_" ++ toString (w.envAt 0 1).nowMs ++ "_" ++ (w.envAt 0 1).rand),
      title := jsOr (objLookup f2 "title") (vStr "Untitled"),
      snippet := if truthy (objLookup f2 "description") then objLookup f2 "description"
        else jsOr (objLookup f2 "content") (vStr ""),
      url := vStr "#",
      image := jsOr (objLookup f2 "image")
        (vStr "https://via.placeholder.com/600x400?text=News"),
      publishedAt := jsOr (objLookup f2 "publishedAt")
        (vStr (isoString (w.envAt 0 1).nowMs)),
      source := jsOr (jsFieldOpt (objLookup f2 "source") "name") (vStr "GNews"),
      category := jsOr (objLookup f2 "category") (vStr "general"),
      aiSummary := vNull } := by
    have h := normalizeArticle_gnews_obj f2 (w.envAt 0 1)
    rw [hn2, jsOr_falsy _ _ hurl2, jsOr_falsy _ _ hurl2] at h
    exact Option.some.inj h
  have hu1 : a1.url = vStr "#" := by rw [ha1]
  have hu2 : a2.url = vStr "#" := by rw [ha2]
  refine ⟨?_, hu1, hu2, ?_⟩
  · have hreqs : buildAPIRequests w.gnewsKey w.guardianKey
        (newsSearchQuery (jsTrim (jsLower (categoryQ.getD "general"))))
        (max 1 (pageQ.getD 1)) (min 50 (max 1 (pageSizeQ.getD 10)))
        = [⟨"gnews", gnewsUrl gk
              (newsSearchQuery (jsTrim (jsLower (categoryQ.getD "general"))))
              (max 1 (pageQ.getD 1)) (min 50 (max 1 (pageSizeQ.getD 10)))⟩] := by
      rw [hgk, hgu]
      exact buildAPIRequests_gnews_only gk hg1 hg2 _ _ _
    have hreqlen : (buildAPIRequests w.gnewsKey w.guardianKey
        (newsSearchQuery (jsTrim (jsLower (categoryQ.getD "general"))))
        (max 1 (pageQ.getD 1)) (min 50 (max 1 (pageSizeQ.getD 10)))).length ≠ 0 := by
      rw [hreqs]
      simp
    have hmerged : fetchAll w 0 (buildAPIRequests w.gnewsKey w.guardianKey
        (newsSearchQuery (jsTrim (jsLower (categoryQ.getD "general"))))
        (max 1 (pageQ.getD 1)) (min 50 (max 1 (pageSizeQ.getD 10))))
        = [a1, a2] := by
      rw [hreqs, fetchAll_cons]
      rw [hfetch _ rfl, processRequest_gnews_arr _ [vObj f1, vObj f2] _ rfl]
      simp [jsBatch, jsBatchAux, hn1, hn2, fetchAll]
    have hdedup : dedupByUrl [a1, a2] = [a1] := by
      simp [dedupByUrl, dedupAux, hu1, hu2, primEq]
    have hsubst : newsSubstituted w (jsTrim (jsLower (categoryQ.getD "general")))
        (max 1 (pageQ.getD 1)) (min 50 (max 1 (pageSizeQ.getD 10)))
        = .list [a1] := by
      simp only [newsSubstituted, hmerged, hdedup]
      rw [if_neg (by simp)]
    rw [getNews_fetch_branch w cache now categoryQ pageQ pageSizeQ _
      hmiss hreqlen hsubst]
    rw [show sortByDateDesc [a1] = [a1] from rfl]
    refine List.take_of_length_le ?_
    have := clamped_pageSize_toNat_pos (pageSizeQ.getD 10)
    simp only [List.length_cons, List.length_nil]
    omega
  · intro h
    rw [ha1, ha2] at h
    simp only [JsVal.vStr.injEq] at h
    exact hid h

/-- Witness for C10: only gnews configured, two url-less items; the result
keeps only the first normalized article, and the two generated ids differ. -/
theorem getNews_sentinel_url_collision_witness :
    truthy (objLookup [("title", vStr "N1")] "url") = false
    ∧ normalizeArticle "gnews" (vObj [("title", vStr "N1")]) (noUrlWorld.envAt 0 0)
      = some { id := vStr "gnews_0_0", title := vStr "N1", snippet := vStr "",
               url := vStr "#",
               image := vStr "https://via.placeholder.com/600x400?text=News",
               publishedAt := vStr "0", source := vStr "GNews",
               category := vStr "general", aiSummary := vNull }
    ∧ (getNews noUrlWorld [] 0 false (some "technology") none none).resp.data
      = [{ id := vStr "gnews_0_0", title := vStr "N1", snippet := vStr "",
           url := vStr "#",
           image := vStr "https://via.placeholder.com/600x400?text=News",
           publishedAt := vStr "0", source := vStr "GNews",
           category := vStr "general", aiSummary := vNull }]
    ∧ ({ id := vStr "gnews_0_0", title := vStr "N1", snippet := vStr "",
         url := vStr "#",
         image := vStr "https://via.placeholder.com/600x400?text=News",
         publishedAt := vStr "0", source := vStr "GNews",
         category := vStr "general", aiSummary := vNull } : Article).id
      ≠ ({ id := vStr "gnews_1_1", title := vStr "N2", snippet := vStr "",
           url := vStr "#",
           image := vStr "https://via.placeholder.com/600x400?text=News",
           publishedAt := vStr "1", source := vStr "GNews",
           category := vStr "general", aiSummary := vNull } : Article).id :=
  ⟨rfl, rfl,
   (getNews_sentinel_url_collision noUrlWorld [] 0 (some "technology") none none
     "k1" [("title", vStr "N1")] [("title", vStr "N2")]
     { id := vStr "gnews_0_0", title := vStr "N1", snippet := vStr "",
       url := vStr "#",
       image := vStr "https://via.placeholder.com/600x400?text=News",
       publishedAt := vStr "0", source := vStr "GNews",
       category := vStr "general", aiSummary := vNull }
     { id := vStr "gnews_1_1", title := vStr "N2", snippet := vStr "",
       url := vStr "#",
       image := vStr "https://via.placeholder.com/600x400?text=News",
       publishedAt := vStr "1", source := vStr "GNews",
       category := vStr "general", aiSummary := vNull }
     rfl (by decide) (by decide) rfl rfl
     (fun r hr => by simp [noUrlWorld, hr, gnewsPayloadNoUrls])
     rfl rfl rfl rfl (by decide)).1,
   (getNews_sentinel_url_collision noUrlWorld [] 0 (some "technology") none none
     "k1" [("title", vStr "N1")] [("title", vStr "N2")]
     { id := vStr "gnews_0_0", title := vStr "N1", snippet := vStr "",
       url := vStr "#",
       image := vStr "https://via.placeholder.com/600x400?text=News",
       publishedAt := vStr "0", source := vStr "GNews",
       category := vStr "general", aiSummary := vNull }
     { id := vStr "gnews_1_1", title := vStr "N2", snippet := vStr "",
       url := vStr "#",
       image := vStr "https://via.placeholder.com/600x400?text=News",
       publishedAt := vStr "1", source := vStr "GNews",
       category := vStr "general", aiSummary := vNull }
     rfl (by decide) (by decide) rfl rfl
     (fun r hr => by simp [noUrlWorld, hr, gnewsPayloadNoUrls])
     rfl rfl rfl rfl (by decide)).2.2.2⟩

end Newszoid
